import Mathlib

/-!
# Session verification and rotation of supertokens-go

A shallow embedding of `supertokens/core/sessionFunctions.go` and of the HTTP-facing
wrappers of `supertokens/supertokens.go`.

Go functions that talk to the outside (the querier, the handshake cache, the process
state, the cookies of the HTTP response) become state-passing functions over a `World`
that records every such effect in a trace.  The collaborators that live outside the two
source files are the fields of `Env`.  A failed Go type assertion is a panic, which is an
outcome of its own.
-/

set_option autoImplicit false

/-! ## Values decoded from the core's JSON responses -/

/-- A Go `float64`: a finite value `(-1)^negative * mantissa * 2^exponent`, an infinity or
a NaN.  Every `float64` has one of these forms; the type does not bound the mantissa and
the exponent, so it also has finite values that no `float64` holds. -/
inductive Float64 where
  | finite (negative : Bool) (mantissa : Nat) (exponent : Int)
  | infinity (negative : Bool)
  | nan

/-- The integer part of the magnitude `mantissa * 2^exponent`. -/
def Float64.truncAbs (mantissa : Nat) : Int → Nat
  | .ofNat k => mantissa * 2 ^ k
  | .negSucc k => mantissa / 2 ^ (k + 1)

/-- Whether the `float64` has exactly the value of the natural number `n`. -/
def Float64.isNat : Float64 → Nat → Bool
  | .finite negative m (.ofNat k), n => m * 2 ^ k == n && (!negative || n == 0)
  | .finite negative m (.negSucc k), n => m == n * 2 ^ (k + 1) && (!negative || n == 0)
  | _, _ => false

/-- A Go `interface{}` as it comes out of a decoded JSON document; a JSON number is a
`float64`. -/
inductive JSON where
  | null
  | bool (b : Bool)
  | number (f : Float64)
  | string (s : String)
  | array (xs : List JSON)
  | object (kvs : List (String × JSON))

/-- A Go `map[string]interface{}` that is not nil: keys with their values. -/
abbrev JSONObject := List (String × JSON)

/-- The Go conversion `uint64(f)` of a `float64`.  The fraction is discarded (truncation
towards zero); when the truncated value is not a `uint64` (a negative value, a value of
2^64 or more, an infinity, a NaN) the conversion succeeds with a result that depends on the
implementation, given here by `outOfRange`. -/
def uint64 (outOfRange : Float64 → Nat) (f : Float64) : Nat :=
  match f with
  | .finite negative m e =>
    if Float64.truncAbs m e = 0 then 0
    else if negative = false ∧ Float64.truncAbs m e < 2 ^ 64 then Float64.truncAbs m e
    else outOfRange f % 2 ^ 64
  | _ => outOfRange f % 2 ^ 64

/-! ## The errors package -/

/-- Modelled from the spec: the `errors` package is outside the two source files.  It has
the four kinds of section 7; `UnauthorizedError` and `UnauthorisedError` are the two
spellings the source files use for the one unauthorised kind. -/
inductive Error where
  | UnauthorizedError (Msg : String)
  | TryRefreshTokenError (Msg : String)
  | TokenTheftDetectedError (Msg : String) (SessionHandle : String) (UserID : String)
  | GeneralError (Msg : String)
  deriving DecidableEq, Repr

namespace errors

/-- Modelled from the spec: `errors.IsTryRefreshTokenError`, true exactly on the
"needs refresh" kind. -/
def IsTryRefreshTokenError : Error → Bool
  | .TryRefreshTokenError _ => true
  | _ => false

/-- The test `reflect.TypeOf(err) == reflect.TypeOf(errors.UnauthorisedError{})`. -/
def isUnauthorisedType : Error → Bool
  | .UnauthorizedError _ => true
  | _ => false

/-- The test `reflect.TypeOf(err) == reflect.TypeOf(errors.TokenTheftDetectedError{})`. -/
def isTokenTheftDetectedType : Error → Bool
  | .TokenTheftDetectedError _ _ _ => true
  | _ => false

end errors

/-! ## Data model -/

namespace core

/-- The Go struct `TokenInfo`. -/
structure TokenInfo where
  Token : String
  Expiry : Nat
  CreatedTime : Nat
  CookiePath : String
  CookieSecure : Bool
  Domain : Option String
  SameSite : String

/-- The Go struct `SessionInfo`; a nil map, a nil pointer is `none`. -/
structure SessionInfo where
  Handle : String
  UserID : String
  UserDataInJWT : Option JSONObject
  AccessToken : Option TokenInfo
  RefreshToken : Option TokenInfo
  IDRefreshToken : Option TokenInfo
  AntiCsrfToken : Option String

/-- The zero value `SessionInfo{}`. -/
def SessionInfo.zero : SessionInfo :=
  { Handle := "", UserID := "", UserDataInJWT := none, AccessToken := none,
    RefreshToken := none, IDRefreshToken := none, AntiCsrfToken := none }

/-- Modelled from the spec: the claims struct that `getInfoFromAccessToken` returns
(`AccessTokenClaims` of section 3), declared outside the two source files. -/
structure AccessTokenInfo where
  sessionHandle : String
  userID : String
  userData : Option JSONObject
  expiryTime : Nat
  antiCsrfToken : Option String
  parentRefreshTokenHash1 : Option String

/-- Modelled from the spec: the struct `HandshakeInfo` of section 3, declared outside the
two source files. -/
structure HandshakeInfo where
  JwtSigningPublicKey : String
  JwtSigningPublicKeyExpiryTime : Nat
  EnableAntiCsrf : Bool
  AccessTokenBlacklistingEnabled : Bool
  CookieDomain : Option String
  CookieSecure : Bool
  AccessTokenPath : String
  RefreshTokenPath : String
  IDRefreshTokenPath : String
  CookieSameSite : String

/-- The identity of a `*http.ResponseWriter`. -/
abbrev ResponseRef := Nat

/-- An observable effect of the library, in the order the code performs it. -/
inductive Event where
  | AddStateCallingServiceInVerify
  | getInfoFromAccessToken (token : String) (key : String) (doAntiCsrfCheck : Bool)
  | SendPostRequest (requestID : String) (path : String) (body : JSONObject)
  | SendGetRequest (requestID : String) (path : String) (params : List (String × String))
  | SendPutRequest (requestID : String) (path : String) (body : JSONObject)
  | UpdateJwtSigningPublicKeyInfo (receiver : Option HandshakeInfo) (key : String)
      (expiry : Nat)
  | saveFrontendInfoFromRequest
  | clearSessionFromCookie (response : Option ResponseRef) (domain : Option String)
      (secure : Bool) (accessTokenPath : String) (refreshTokenPath : String)
      (idRefreshTokenPath : String) (sameSite : String)
  | attachAccessTokenToCookie (response : Option ResponseRef) (token : String)
      (expiry : Nat) (domain : Option String) (path : String) (secure : Bool)
      (sameSite : String)
  | attachRefreshTokenToCookie (response : Option ResponseRef) (token : String)
      (expiry : Nat) (domain : Option String) (path : String) (secure : Bool)
      (sameSite : String)
  | setIDRefreshTokenInHeaderAndCookie (response : Option ResponseRef) (token : String)
      (expiry : Nat) (domain : Option String) (path : String) (secure : Bool)
      (sameSite : String)
  | setAntiCsrfTokenInHeaders (response : Option ResponseRef) (token : String)

/-- Whether an event is a request to the querier. -/
def Event.isQuerierRequest : Event → Bool
  | .SendPostRequest _ _ _ => true
  | .SendGetRequest _ _ _ => true
  | .SendPutRequest _ _ _ => true
  | _ => false

/-- Whether an event consults the local verifier. -/
def Event.isLocalVerify : Event → Bool
  | .getInfoFromAccessToken _ _ _ => true
  | _ => false

/-- Whether an event updates the cached handshake key. -/
def Event.isHandshakeUpdate : Event → Bool
  | .UpdateJwtSigningPublicKeyInfo _ _ _ => true
  | _ => false

/-- The collaborators that are outside the two source files: the handshake cache, the
clock, the local verifier, the querier and the decoder of a session response, and what
the Go implementation gives for `uint64(f)` when `f` is out of range.  The handshake fetch
is a function of how many fetches came before, so that two fetches in one call may
differ. -/
structure Env where
  GetHandshakeInfoInstance : Nat → Except Error HandshakeInfo
  getCurrTimeInMS : Nat
  getInfoFromAccessToken : String → String → Bool → Except Error AccessTokenInfo
  SendPostRequest : String → String → JSONObject → Except Error JSONObject
  SendGetRequest : String → String → List (String × String) → Except Error JSONObject
  SendPutRequest : String → String → JSONObject → Except Error JSONObject
  convertJSONResponseToSessionInfo : JSONObject → Option SessionInfo
  uint64OutOfRange : Float64 → Nat

/-- The state the library runs in: the number of handshake fetches so far and the trace of
effects so far, oldest first. -/
structure World where
  fetches : Nat
  trace : List Event

/-- How a Go call ends: it returns, or it panics. -/
inductive Outcome (α : Type) where
  | ret (a : α)
  | panic

/-- A Go computation: from a world to an outcome and the world it leaves. -/
def Go (α : Type) : Type := World → Outcome α × World

/-- Return a value, leaving the world as it is. -/
def Go.pure {α : Type} (a : α) : Go α := fun w => (.ret a, w)

/-- Run `m`, then `f` on what it returned; a panic ends the computation. -/
def Go.bind {α β : Type} (m : Go α) (f : α → Go β) : Go β := fun w =>
  match m w with
  | (.ret a, w1) => f a w1
  | (.panic, w1) => (.panic, w1)

instance : Monad Go where
  pure := Go.pure
  bind := Go.bind

/-- A run-time panic. -/
def Go.panic {α : Type} : Go α := fun w => (.panic, w)

/-- Append an effect to the trace. -/
def emit (e : Event) : Go Unit := fun w => (.ret (), { w with trace := w.trace ++ [e] })

/-- The call `GetHandshakeInfoInstance()`. -/
def GetHandshakeInfoInstance (env : Env) : Go (Except Error HandshakeInfo) := fun w =>
  (.ret (env.GetHandshakeInfoInstance w.fetches), { w with fetches := w.fetches + 1 })

/-- The call `getInfoFromAccessToken(token, key, doAntiCsrfCheck)`. -/
def getInfoFromAccessToken (env : Env) (token key : String) (doAntiCsrfCheck : Bool) :
    Go (Except Error AccessTokenInfo) := do
  emit (.getInfoFromAccessToken token key doAntiCsrfCheck)
  return env.getInfoFromAccessToken token key doAntiCsrfCheck

/-- The call `GetQuerierInstance().SendPostRequest(requestID, path, body)`. -/
def SendPostRequest (env : Env) (requestID path : String) (body : JSONObject) :
    Go (Except Error JSONObject) := do
  emit (.SendPostRequest requestID path body)
  return env.SendPostRequest requestID path body

/-- The call `GetQuerierInstance().SendGetRequest(requestID, path, params)`. -/
def SendGetRequest (env : Env) (requestID path : String) (params : List (String × String)) :
    Go (Except Error JSONObject) := do
  emit (.SendGetRequest requestID path params)
  return env.SendGetRequest requestID path params

/-- The call `GetQuerierInstance().SendPutRequest(requestID, path, body)`. -/
def SendPutRequest (env : Env) (requestID path : String) (body : JSONObject) :
    Go (Except Error JSONObject) := do
  emit (.SendPutRequest requestID path body)
  return env.SendPutRequest requestID path body

/-- The call `convertJSONResponseToSessionInfo(response)`; `none` is a panic inside it. -/
def convertJSONResponseToSessionInfo (env : Env) (response : JSONObject) : Go SessionInfo :=
  match env.convertJSONResponseToSessionInfo response with
  | some s => pure s
  | none => Go.panic

/-- The test `response[key] == s` of a map entry against a string constant. -/
def fieldIs (response : JSONObject) (key s : String) : Bool :=
  match response.lookup key with
  | some (.string t) => t == s
  | _ => false

/-- The type assertion `v.(string)`. -/
def assertString : Option JSON → Go String
  | some (.string s) => pure s
  | _ => Go.panic

/-- The type assertion `v.(float64)`. -/
def assertFloat64 : Option JSON → Go Float64
  | some (.number f) => pure f
  | _ => Go.panic

/-- The type assertion `v.(map[string]interface{})`. -/
def assertMap : Option JSON → Go JSONObject
  | some (.object kvs) => pure kvs
  | _ => Go.panic

/-- The type assertion `v.([]interface{})`. -/
def assertArray : Option JSON → Go (List JSON)
  | some (.array xs) => pure xs
  | _ => Go.panic

/-- Modelled from the spec: `convertInterfaceArrayToStringArray`, defined outside the two
source files; it turns the list of handles of a response into a list of strings, each
element by the type assertion to string. -/
def convertInterfaceArrayToStringArray : List JSON → Go (List String)
  | [] => pure []
  | x :: xs => do
    let s ← assertString (some x)
    let rest ← convertInterfaceArrayToStringArray xs
    return s :: rest

/-- The body entries added by `if antiCsrfToken != nil { body["antiCsrfToken"] = ... }`. -/
def antiCsrfEntry : Option String → JSONObject
  | some t => [("antiCsrfToken", .string t)]
  | none => []

/-- The error half of a Go `(value, error)` pair. -/
def errorOf {α : Type} : Except Error α → Option Error
  | .error e => some e
  | .ok _ => none

/-! ## sessionFunctions.go -/

/-- The function `CreateNewSession`. -/
def CreateNewSession (env : Env) (userID : String) (jwtPayload sessionData : JSONObject) :
    Go (SessionInfo × Option Error) := do
  match ← SendPostRequest env "newsession" "/session"
      [("userId", .string userID), ("userDataInJWT", .object jwtPayload),
       ("userDataInDatabase", .object sessionData)] with
  | .error err => return (SessionInfo.zero, some err)
  | .ok response =>
    let s ← convertJSONResponseToSessionInfo env response
    return (s, none)

/-- The first block of `GetSession` (lines 68 to 103), the local check: `some r` is an
early `return r`, `none` is control leaving the block towards the request to the core. -/
def GetSession.localCheck (env : Env) (accessToken : String) (antiCsrfToken : Option String)
    (doAntiCsrfCheck : Bool) : Go (Option (SessionInfo × Option Error)) := do
  match ← GetHandshakeInfoInstance env with
  | .error handShakeError => return some (SessionInfo.zero, some handShakeError)
  | .ok handShakeInfo =>
    if handShakeInfo.JwtSigningPublicKeyExpiryTime > env.getCurrTimeInMS then
      match ← getInfoFromAccessToken env accessToken handShakeInfo.JwtSigningPublicKey
          (handShakeInfo.EnableAntiCsrf && doAntiCsrfCheck) with
      | .ok accessTokenInfo =>
        if handShakeInfo.EnableAntiCsrf && doAntiCsrfCheck &&
            (antiCsrfToken == none || accessTokenInfo.antiCsrfToken == none ||
              antiCsrfToken != accessTokenInfo.antiCsrfToken) then
          -- we continue querying the core...
          return none
        else
          if !handShakeInfo.AccessTokenBlacklistingEnabled &&
              accessTokenInfo.parentRefreshTokenHash1 == none then
            return some
              ({ Handle := accessTokenInfo.sessionHandle,
                 UserID := accessTokenInfo.userID,
                 UserDataInJWT := accessTokenInfo.userData,
                 AccessToken := none,
                 RefreshToken := none,
                 IDRefreshToken := none,
                 AntiCsrfToken := none }, none)
          else
            -- we continue querying the core...
            return none
      | .error accessTokenError =>
        if !errors.IsTryRefreshTokenError accessTokenError then
          return some (SessionInfo.zero, some accessTokenError)
        else
          -- we continue querying the core...
          return none
    else
      return none

/-- The body of the verify request of `GetSession`. -/
def GetSession.body (accessToken : String) (antiCsrfToken : Option String)
    (doAntiCsrfCheck : Bool) : JSONObject :=
  [("accessToken", .string accessToken), ("doAntiCsrfCheck", .bool doAntiCsrfCheck)] ++
    antiCsrfEntry antiCsrfToken

/-- The "OK" branch of the verify response in `GetSession` (lines 119 to 127); `err` is
the transport error of the request, which the guard on the second handshake fetch tests. -/
def GetSession.onOK (env : Env) (response : JSONObject) (err : Option Error) :
    Go (SessionInfo × Option Error) := do
  let handShake ← GetHandshakeInfoInstance env
  match errorOf handShake, err with
  | some handShakeError, some _ => return (SessionInfo.zero, some handShakeError)
  | _, _ =>
    let key ← assertString (response.lookup "jwtSigningPublicKey")
    let expiry ← assertFloat64 (response.lookup "jwtSigningPublicKeyExpiryTime")
    emit (.UpdateJwtSigningPublicKeyInfo handShake.toOption key
      (uint64 env.uint64OutOfRange expiry))
    let s ← convertJSONResponseToSessionInfo env response
    return (s, none)

/-- The mapping of the outcome of the verify request in `GetSession` (lines 115 to 136). -/
def GetSession.onResponse (env : Env) (r : Except Error JSONObject) :
    Go (SessionInfo × Option Error) :=
  match r with
  | .error err => return (SessionInfo.zero, some err)
  | .ok response =>
    if fieldIs response "status" "OK" then
      GetSession.onOK env response none
    else if fieldIs response "status" "UNAUTHORISED" then do
      let msg ← assertString (response.lookup "message")
      return (SessionInfo.zero, some (.UnauthorizedError msg))
    else do
      let msg ← assertString (response.lookup "message")
      return (SessionInfo.zero, some (.TryRefreshTokenError msg))

/-- The rest of `GetSession` (lines 105 to 136): the request to the core, and the mapping
of its outcome. -/
def GetSession.remote (env : Env) (accessToken : String) (antiCsrfToken : Option String)
    (doAntiCsrfCheck : Bool) : Go (SessionInfo × Option Error) := do
  emit .AddStateCallingServiceInVerify
  let r ← SendPostRequest env "verify" "/session/verify"
    (GetSession.body accessToken antiCsrfToken doAntiCsrfCheck)
  GetSession.onResponse env r

/-- The function `GetSession`, used to verify a session. -/
def GetSession (env : Env) (accessToken : String) (antiCsrfToken : Option String)
    (doAntiCsrfCheck : Bool) : Go (SessionInfo × Option Error) := do
  match ← GetSession.localCheck env accessToken antiCsrfToken doAntiCsrfCheck with
  | some r => return r
  | none => GetSession.remote env accessToken antiCsrfToken doAntiCsrfCheck

/-- The body of the refresh request of `RefreshSession`. -/
def RefreshSession.body (refreshToken : String) (antiCsrfToken : Option String) :
    JSONObject :=
  [("refreshToken", .string refreshToken)] ++ antiCsrfEntry antiCsrfToken

/-- The mapping of the outcome of the refresh request in `RefreshSession` (lines 148 to
163). -/
def RefreshSession.onResponse (env : Env) (r : Except Error JSONObject) :
    Go (SessionInfo × Option Error) :=
  match r with
  | .error err => return (SessionInfo.zero, some err)
  | .ok response =>
    if fieldIs response "status" "OK" then do
      let s ← convertJSONResponseToSessionInfo env response
      return (s, none)
    else if fieldIs response "status" "UNAUTHORISED" then do
      let msg ← assertString (response.lookup "message")
      return (SessionInfo.zero, some (.UnauthorizedError msg))
    else do
      let session1 ← assertMap (response.lookup "session")
      let handle ← assertString (session1.lookup "handle")
      let session2 ← assertMap (response.lookup "session")
      let userId ← assertString (session2.lookup "userId")
      return (SessionInfo.zero,
        some (.TokenTheftDetectedError "Token theft detected" handle userId))

/-- The function `RefreshSession`, used to refresh a session. -/
def RefreshSession (env : Env) (refreshToken : String) (antiCsrfToken : Option String) :
    Go (SessionInfo × Option Error) := do
  let r ← SendPostRequest env "refresh" "/session/refresh"
    (RefreshSession.body refreshToken antiCsrfToken)
  RefreshSession.onResponse env r

/-- The function `RevokeAllSessionsForUser`. -/
def RevokeAllSessionsForUser (env : Env) (userID : String) :
    Go (Option (List String) × Option Error) := do
  match ← SendPostRequest env "revokeall" "/session/remove" [("userId", .string userID)] with
  | .error err => return (none, some err)
  | .ok response =>
    let xs ← assertArray (response.lookup "sessionHandlesRevoked")
    let hs ← convertInterfaceArrayToStringArray xs
    return (some hs, none)

/-- The function `GetAllSessionHandlesForUser`. -/
def GetAllSessionHandlesForUser (env : Env) (userID : String) :
    Go (Option (List String) × Option Error) := do
  match ← SendGetRequest env "getall" "/session/user" [("userId", userID)] with
  | .error err => return (none, some err)
  | .ok response =>
    let xs ← assertArray (response.lookup "sessionHandles")
    let hs ← convertInterfaceArrayToStringArray xs
    return (some hs, none)

/-- The function `RevokeSession`. -/
def RevokeSession (env : Env) (sessionHandle : String) : Go (Bool × Option Error) := do
  match ← SendPostRequest env "revoke" "/session/remove"
      [("sessionHandles", .array [.string sessionHandle])] with
  | .error err => return (false, some err)
  | .ok response =>
    let xs ← assertArray (response.lookup "sessionHandlesRevoked")
    return (xs.length == 1, none)

/-- The function `RevokeMultipleSessions`. -/
def RevokeMultipleSessions (env : Env) (sessionHandles : List String) :
    Go (Option (List String) × Option Error) := do
  match ← SendPostRequest env "revokemultiple" "/session/remove"
      [("sessionHandles", .array (sessionHandles.map .string))] with
  | .error err => return (none, some err)
  | .ok response =>
    let xs ← assertArray (response.lookup "sessionHandlesRevoked")
    let hs ← convertInterfaceArrayToStringArray xs
    return (some hs, none)

/-- The function `GetSessionData`. -/
def GetSessionData (env : Env) (sessionHandle : String) :
    Go (Option JSONObject × Option Error) := do
  match ← SendGetRequest env "getsessiondata" "/session/data"
      [("sessionHandle", sessionHandle)] with
  | .error err => return (none, some err)
  | .ok response =>
    if fieldIs response "status" "OK" then
      let data ← assertMap (response.lookup "userDataInDatabase")
      return (some data, none)
    else
      let msg ← assertString (response.lookup "message")
      return (none, some (.UnauthorizedError msg))

/-- The function `UpdateSessionData`. -/
def UpdateSessionData (env : Env) (sessionHandle : String) (newSessionData : JSONObject) :
    Go (Option Error) := do
  match ← SendPutRequest env "updatesessiondata" "/session/data"
      [("sessionHandle", .string sessionHandle),
       ("userDataInDatabase", .object newSessionData)] with
  | .error err => return some err
  | .ok response =>
    if fieldIs response "status" "UNAUTHORISED" then
      let msg ← assertString (response.lookup "message")
      return some (.UnauthorizedError msg)
    else
      return none

/-- The function `GetJWTPayload`. -/
def GetJWTPayload (env : Env) (sessionHandle : String) :
    Go (Option JSONObject × Option Error) := do
  match ← SendGetRequest env "getjwtpayload" "/jwt/data"
      [("sessionHandle", sessionHandle)] with
  | .error err => return (none, some err)
  | .ok response =>
    if fieldIs response "status" "OK" then
      let data ← assertMap (response.lookup "userDataInJWT")
      return (some data, none)
    else
      let msg ← assertString (response.lookup "message")
      return (none, some (.UnauthorizedError msg))

/-- The function `UpdateJWTPayload`. -/
def UpdateJWTPayload (env : Env) (sessionHandle : String) (newJWTPayload : JSONObject) :
    Go (Option Error) := do
  match ← SendPutRequest env "updatejwtpayload" "/jwt/data"
      [("sessionHandle", .string sessionHandle),
       ("userDataInJWT", .object newJWTPayload)] with
  | .error err => return some err
  | .ok response =>
    if fieldIs response "status" "UNAUTHORISED" then
      let msg ← assertString (response.lookup "message")
      return some (.UnauthorizedError msg)
    else
      return none

end core

/-! ## supertokens.go -/

namespace supertokens

open core

/-- The struct `Session` that the wrappers return, with the fields their literals set. -/
structure Session where
  accessToken : String
  sessionHandle : String
  userID : String
  userDataInJWT : Option JSONObject
  response : Option ResponseRef

/-- The zero value `Session{}`. -/
def Session.zero : Session :=
  { accessToken := "", sessionHandle := "", userID := "", userDataInJWT := none,
    response := none }

/-- An HTTP request, as far as the library reads it: its cookies and its headers. -/
structure Request where
  cookies : List (String × String)
  headers : List (String × String)

/-- What `supertokens.go` calls and the two source files do not define: the readers of the
request, and the functions of package `core` with the argument lists of the calls in
`supertokens.go` (`core.GetSession` with the id refresh token as a fourth argument,
`core.RefreshSession` with the refresh token alone). -/
structure Deps where
  getAccessTokenFromCookie : Request → Option String
  getAntiCsrfTokenFromHeaders : Request → Option String
  getIDRefreshTokenFromCookie : Request → Option String
  getRefreshTokenFromCookie : Request → Option String
  coreGetSession : String → Option String → Bool → Option String →
    Go (SessionInfo × Option Error)
  coreRefreshSession : String → Go (SessionInfo × Option Error)

/-- The call `clearSessionFromCookie(response, handShakeInfo.CookieDomain, ...)`. -/
def clearSessionFromCookie (response : Option ResponseRef) (handShakeInfo : HandshakeInfo) :
    Go Unit :=
  emit (.clearSessionFromCookie response handShakeInfo.CookieDomain
    handShakeInfo.CookieSecure handShakeInfo.AccessTokenPath handShakeInfo.RefreshTokenPath
    handShakeInfo.IDRefreshTokenPath handShakeInfo.CookieSameSite)

/-- The block `if err != nil { ... }` of the wrapper `GetSession` (lines 104 to 119):
`some r` is an early `return r`, `none` is control leaving the block. -/
def GetSession.onError (env : Env) (response : Option ResponseRef) (err : Option Error) :
    Go (Option (Session × Option Error)) := do
  match err with
  | some e =>
    if errors.isUnauthorisedType e then
      match ← GetHandshakeInfoInstance env with
      | .error err => return some (Session.zero, some err)
      | .ok handShakeInfo =>
        clearSessionFromCookie response handShakeInfo
        return none
    else
      return none
  | none => return none

/-- The wrapper `GetSession`, used to verify a session. -/
def GetSession (env : Env) (deps : Deps) (response : Option ResponseRef) (request : Request)
    (doAntiCsrfCheck : Bool) : Go (Session × Option Error) := do
  emit .saveFrontendInfoFromRequest
  match deps.getAccessTokenFromCookie request with
  | none =>
    -- maybe the access token has expired.
    return (Session.zero, some (.TryRefreshTokenError "access token missing in cookies"))
  | some accessToken =>
    let antiCsrfToken := deps.getAntiCsrfTokenFromHeaders request
    let idRefreshToken := deps.getIDRefreshTokenFromCookie request
    let (session, err) ← deps.coreGetSession accessToken antiCsrfToken doAntiCsrfCheck
      idRefreshToken
    match ← GetSession.onError env response err with
    | some r => return r
    | none =>
      match session.AccessToken with
      | some t =>
        emit (.attachAccessTokenToCookie response t.Token t.Expiry t.Domain t.CookiePath
          t.CookieSecure t.SameSite)
      | none => pure ()
      return ({ accessToken := accessToken, response := response,
                sessionHandle := session.Handle, userDataInJWT := session.UserDataInJWT,
                userID := session.UserID }, none)

/-- The dereference of a token pointer; a nil pointer is a panic. -/
def deref : Option TokenInfo → Go TokenInfo
  | some t => pure t
  | none => Go.panic

/-- The wrapper `RefreshSession`, used to refresh a session. -/
def RefreshSession (env : Env) (deps : Deps) (response : Option ResponseRef)
    (request : Request) : Go (Session × Option Error) := do
  emit .saveFrontendInfoFromRequest
  match deps.getRefreshTokenFromCookie request with
  | none =>
    match ← GetHandshakeInfoInstance env with
    | .error err => return (Session.zero, some err)
    | .ok handShakeInfo =>
      clearSessionFromCookie response handShakeInfo
      return (Session.zero, some (.UnauthorizedError
        "Missing auth tokens in cookies. Have you set the correct refresh API path in your frontend and SuperTokens config?"))
  | some inputRefreshToken =>
    let (session, err) ← deps.coreRefreshSession inputRefreshToken
    match err with
    | some e =>
      if errors.isUnauthorisedType e || errors.isTokenTheftDetectedType e then
        match ← GetHandshakeInfoInstance env with
        | .error err2 => return (Session.zero, some err2)
        | .ok handShakeInfo =>
          clearSessionFromCookie response handShakeInfo
          return (Session.zero, some e)
      else
        return (Session.zero, some e)
    | none =>
      -- attach cookies
      let accessToken ← deref session.AccessToken
      emit (.attachAccessTokenToCookie response accessToken.Token accessToken.Expiry
        accessToken.Domain accessToken.CookiePath accessToken.CookieSecure
        accessToken.SameSite)
      let refreshToken ← deref session.RefreshToken
      emit (.attachRefreshTokenToCookie response refreshToken.Token refreshToken.Expiry
        refreshToken.Domain refreshToken.CookiePath refreshToken.CookieSecure
        refreshToken.SameSite)
      let idRefreshToken ← deref session.IDRefreshToken
      emit (.setIDRefreshTokenInHeaderAndCookie response idRefreshToken.Token
        idRefreshToken.Expiry idRefreshToken.Domain idRefreshToken.CookiePath
        idRefreshToken.CookieSecure idRefreshToken.SameSite)
      match session.AntiCsrfToken with
      | some t => emit (.setAntiCsrfTokenInHeaders response t)
      | none => pure ()
      return ({ accessToken := accessToken.Token, sessionHandle := session.Handle,
                userID := session.UserID, userDataInJWT := session.UserDataInJWT,
                response := response }, none)

end supertokens

/-! ## A concrete core, for evaluating the functions -/

namespace demo

open core

/-- A handshake whose key expires at `expiry`. -/
def handshake (expiry : Nat) (antiCsrf blacklisting : Bool) : HandshakeInfo :=
  { JwtSigningPublicKey := "pk", JwtSigningPublicKeyExpiryTime := expiry,
    EnableAntiCsrf := antiCsrf, AccessTokenBlacklistingEnabled := blacklisting,
    CookieDomain := some "example.com", CookieSecure := true, AccessTokenPath := "/",
    RefreshTokenPath := "/refresh", IDRefreshTokenPath := "/", CookieSameSite := "lax" }

/-- The claims of a token of user `u1`. -/
def claims (parent : Option String) : AccessTokenInfo :=
  { sessionHandle := "h1", userID := "u1", userData := some [("role", .string "admin")],
    expiryTime := 5000, antiCsrfToken := some "csrf", parentRefreshTokenHash1 := parent }

/-- A decoder of session responses that reads the session descriptor. -/
def convert (response : JSONObject) : Option SessionInfo :=
  match response.lookup "session" with
  | some (.object s) =>
    match s.lookup "handle", s.lookup "userId" with
    | some (.string h), some (.string u) =>
      some { Handle := h, UserID := u, UserDataInJWT := none, AccessToken := none,
             RefreshToken := none, IDRefreshToken := none, AntiCsrfToken := none }
    | _, _ => none
  | _ => none

/-- A core at time 1000 whose handshake fetch gives `hs`, whose local verifier gives
`localResult` and whose querier answers every request with `reply`; an out-of-range
conversion to `uint64` gives 2^63. -/
def env (hs : HandshakeInfo) (localResult : Except Error AccessTokenInfo)
    (reply : Except Error JSONObject) : Env :=
  { GetHandshakeInfoInstance := fun _ => .ok hs,
    getCurrTimeInMS := 1000,
    getInfoFromAccessToken := fun _ _ _ => localResult,
    SendPostRequest := fun _ _ _ => reply,
    SendGetRequest := fun _ _ _ => reply,
    SendPutRequest := fun _ _ _ => reply,
    convertJSONResponseToSessionInfo := convert,
    uint64OutOfRange := fun _ => 2 ^ 63 }

/-- The world before anything happened. -/
def w0 : World := { fetches := 0, trace := [] }

/-- A verify response with status "OK". -/
def okResponse : JSONObject :=
  [("status", .string "OK"),
   ("session", .object [("handle", .string "h1"), ("userId", .string "u1")]),
   ("jwtSigningPublicKey", .string "pk2"), ("jwtSigningPublicKeyExpiryTime", .number (.finite false 9000 0))]

/-- A verify response with status "OK" whose key expiry time is 9000.5, the float64
`18001 * 2^(-1)`. -/
def fractionalResponse : JSONObject :=
  [("status", .string "OK"),
   ("session", .object [("handle", .string "h1"), ("userId", .string "u1")]),
   ("jwtSigningPublicKey", .string "pk2"),
   ("jwtSigningPublicKeyExpiryTime", .number (.finite false 18001 (Int.negSucc 0)))]

/-- A response with the given status and message. -/
def failResponse (status msg : String) : JSONObject :=
  [("status", .string status), ("message", .string msg)]

/-- The response of the core to the reuse of a refresh token. -/
def theftResponse : JSONObject :=
  [("status", .string "TOKEN_THEFT_DETECTED"),
   ("session", .object [("handle", .string "h1"), ("userId", .string "u1")])]

/-- The readers of the request, by cookie and header name, and the functions of package
`core` of `sessionFunctions.go`, called with the arguments they take. -/
def deps (e : Env) : supertokens.Deps :=
  { getAccessTokenFromCookie := fun r => r.cookies.lookup "sAccessToken",
    getAntiCsrfTokenFromHeaders := fun r => r.headers.lookup "anti-csrf",
    getIDRefreshTokenFromCookie := fun r => r.cookies.lookup "sIdRefreshToken",
    getRefreshTokenFromCookie := fun r => r.cookies.lookup "sRefreshToken",
    coreGetSession := fun accessToken antiCsrfToken doAntiCsrfCheck _ =>
      core.GetSession e accessToken antiCsrfToken doAntiCsrfCheck,
    coreRefreshSession := fun refreshToken => core.RefreshSession e refreshToken none }

/-- A core like `env` whose handshake fetch succeeds the first time only: every later
fetch fails. -/
def envFetchOnce (hs : HandshakeInfo) (reply : Except Error JSONObject) : Env :=
  { GetHandshakeInfoInstance := fun n =>
      if n = 0 then .ok hs else .error (.GeneralError "core unreachable"),
    getCurrTimeInMS := 1000,
    getInfoFromAccessToken := fun _ _ _ => .ok (claims none),
    SendPostRequest := fun _ _ _ => reply,
    SendGetRequest := fun _ _ _ => reply,
    SendPutRequest := fun _ _ _ => reply,
    convertJSONResponseToSessionInfo := convert,
    uint64OutOfRange := fun _ => 2 ^ 63 }

/-- A request that carries an access token cookie and a refresh token cookie. -/
def request : supertokens.Request :=
  { cookies := [("sAccessToken", "expired-token"), ("sRefreshToken", "old-refresh-token")],
    headers := [] }

end demo

/-! ## Reading a run -/

namespace core

/-- The effects a computation adds to the trace when run from the world `w`. -/
def effects {α : Type} (m : Go α) (w : World) : List Event :=
  (m w).2.trace.drop w.trace.length

/-- The value a computation returns when run from `w`, if it returns. -/
def result {α : Type} (m : Go α) (w : World) : Option α :=
  match (m w).1 with
  | .ret a => some a
  | .panic => none

/-- The computation `m` extends the trace, and only by events that satisfy `P`. -/
def Adds (P : Event → Prop) {α : Type} (m : Go α) : Prop :=
  ∀ w, ∃ es, (m w).2.trace = w.trace ++ es ∧ ∀ e ∈ es, P e

/-- Whenever the computation `m` returns, the value it returns satisfies `Q`. -/
def Returns {α : Type} (Q : α → Prop) (m : Go α) : Prop :=
  ∀ w a w2, m w = (.ret a, w2) → Q a

/-- A Go `(SessionInfo, error)` pair that carries the zero session whenever it carries an
error. -/
def zeroOnError (r : SessionInfo × Option Error) : Prop :=
  r.2 ≠ none → r.1 = SessionInfo.zero

/-! ## Theorems -/

@[simp] theorem bind_run {α β : Type} (m : Go α) (f : α → Go β) (w : World) :
    (m >>= f) w = Go.bind m f w := rfl

@[simp] theorem pure_run {α : Type} (a : α) (w : World) :
    (Pure.pure a : Go α) w = (.ret a, w) := rfl

@[simp] theorem go_pure_run {α : Type} (a : α) (w : World) :
    (Go.pure a : Go α) w = (.ret a, w) := rfl

@[simp] theorem go_panic_run {α : Type} (w : World) :
    (Go.panic : Go α) w = (.panic, w) := rfl

@[simp] theorem emit_run (e : Event) (w : World) :
    emit e w = (.ret (), { w with trace := w.trace ++ [e] }) := rfl

@[simp] theorem GetHandshakeInfoInstance_run (env : Env) (w : World) :
    GetHandshakeInfoInstance env w =
      (.ret (env.GetHandshakeInfoInstance w.fetches), { w with fetches := w.fetches + 1 }) :=
  rfl

theorem effects_of_run {α : Type} (m : Go α) (w : World) (o : Outcome α) (n : Nat)
    (es : List Event) (h : m w = (o, { fetches := n, trace := w.trace ++ es })) :
    effects m w = es := by
  simp [effects, h]

theorem fieldIs_exclusive (response : JSONObject) (key a b : String) (hab : a ≠ b)
    (h : fieldIs response key a = true) : fieldIs response key b = false := by
  unfold fieldIs at *
  split at h <;> simp_all

theorem GetSession_of_fallthrough (env : Env) (w w1 : World) (accessToken : String)
    (antiCsrfToken : Option String) (doAntiCsrfCheck : Bool)
    (h : GetSession.localCheck env accessToken antiCsrfToken doAntiCsrfCheck w =
      (.ret none, w1)) :
    GetSession env accessToken antiCsrfToken doAntiCsrfCheck w =
      GetSession.remote env accessToken antiCsrfToken doAntiCsrfCheck w1 := by
  simp [GetSession, Go.bind, h]

theorem GetSession_of_early (env : Env) (w w1 : World) (accessToken : String)
    (antiCsrfToken : Option String) (doAntiCsrfCheck : Bool) (r : SessionInfo × Option Error)
    (h : GetSession.localCheck env accessToken antiCsrfToken doAntiCsrfCheck w =
      (.ret (some r), w1)) :
    GetSession env accessToken antiCsrfToken doAntiCsrfCheck w = (.ret r, w1) := by
  simp [GetSession, Go.bind, h]

theorem adds_pure (P : Event → Prop) {α : Type} (a : α) : Adds P (Pure.pure a : Go α) :=
  fun w => ⟨[], by simp, by simp⟩

theorem adds_panic (P : Event → Prop) {α : Type} : Adds P (Go.panic : Go α) :=
  fun w => ⟨[], by simp, by simp⟩

theorem adds_emit (P : Event → Prop) (e : Event) (h : P e) : Adds P (emit e) :=
  fun w => ⟨[e], by simp, by simpa using h⟩

theorem adds_fetch (P : Event → Prop) (env : Env) : Adds P (GetHandshakeInfoInstance env) :=
  fun w => ⟨[], by simp, by simp⟩

theorem adds_bind (P : Event → Prop) {α β : Type} (m : Go α) (f : α → Go β)
    (hm : Adds P m) (hf : ∀ a, Adds P (f a)) : Adds P (m >>= f) := by
  intro w
  obtain ⟨es, h1, h2⟩ := hm w
  rw [bind_run]
  unfold Go.bind
  rcases hmw : m w with ⟨o, w1⟩
  rw [hmw] at h1
  cases o with
  | panic => exact ⟨es, h1, h2⟩
  | ret a =>
    obtain ⟨es2, h3, h4⟩ := hf a w1
    refine ⟨es ++ es2, ?_, ?_⟩
    · simp only [] at h1 ⊢
      rw [h3, h1, List.append_assoc]
    · intro e he
      rcases List.mem_append.1 he with h | h
      · exact h2 e h
      · exact h4 e h

theorem adds_assertString (P : Event → Prop) (v : Option JSON) : Adds P (assertString v) := by
  unfold core.assertString
  split
  · exact adds_pure P _
  · exact adds_panic P

theorem adds_assertFloat64 (P : Event → Prop) (v : Option JSON) :
    Adds P (assertFloat64 v) := by
  unfold core.assertFloat64
  split
  · exact adds_pure P _
  · exact adds_panic P

theorem adds_convert (P : Event → Prop) (env : Env) (response : JSONObject) :
    Adds P (convertJSONResponseToSessionInfo env response) := by
  unfold core.convertJSONResponseToSessionInfo
  split
  · exact adds_pure P _
  · exact adds_panic P

theorem adds_onOK (env : Env) (response : JSONObject) (err : Option Error) :
    Adds (fun e => e.isHandshakeUpdate = true) (GetSession.onOK env response err) := by
  unfold GetSession.onOK
  refine adds_bind _ _ _ (adds_fetch _ env) fun handShake => ?_
  split
  · exact adds_pure _ _
  · refine adds_bind _ _ _ (adds_assertString _ _) fun key => ?_
    refine adds_bind _ _ _ (adds_assertFloat64 _ _) fun expiry => ?_
    refine adds_bind _ _ _ (adds_emit _ _ rfl) fun _ => ?_
    refine adds_bind _ _ _ (adds_convert _ env response) fun s => ?_
    exact adds_pure _ _

theorem adds_onResponse (env : Env) (r : Except Error JSONObject) :
    Adds (fun e => e.isHandshakeUpdate = true) (GetSession.onResponse env r) := by
  unfold GetSession.onResponse
  split
  · exact adds_pure _ _
  · split_ifs
    · exact adds_onOK env _ none
    · exact adds_bind _ _ _ (adds_assertString _ _) fun msg => adds_pure _ _
    · exact adds_bind _ _ _ (adds_assertString _ _) fun msg => adds_pure _ _

theorem remote_run (env : Env) (w : World) (accessToken : String)
    (antiCsrfToken : Option String) (doAntiCsrfCheck : Bool) :
    GetSession.remote env accessToken antiCsrfToken doAntiCsrfCheck w =
      GetSession.onResponse env
        (env.SendPostRequest "verify" "/session/verify"
          (GetSession.body accessToken antiCsrfToken doAntiCsrfCheck))
        { fetches := w.fetches,
          trace := w.trace ++ [.AddStateCallingServiceInVerify,
            .SendPostRequest "verify" "/session/verify"
              (GetSession.body accessToken antiCsrfToken doAntiCsrfCheck)] } := by
  simp [GetSession.remote, SendPostRequest, Go.bind]

/-- The remote part always announces the call and sends the verify request first; what
follows in the trace can only be the update of the handshake key. -/
theorem remote_trace (env : Env) (w : World) (accessToken : String)
    (antiCsrfToken : Option String) (doAntiCsrfCheck : Bool) :
    ∃ es, (GetSession.remote env accessToken antiCsrfToken doAntiCsrfCheck w).2.trace =
        w.trace ++ (.AddStateCallingServiceInVerify ::
          .SendPostRequest "verify" "/session/verify"
            (GetSession.body accessToken antiCsrfToken doAntiCsrfCheck) :: es) ∧
      ∀ e ∈ es, e.isHandshakeUpdate = true := by
  rw [remote_run]
  obtain ⟨es, h1, h2⟩ := adds_onResponse env
    (env.SendPostRequest "verify" "/session/verify"
      (GetSession.body accessToken antiCsrfToken doAntiCsrfCheck))
    { fetches := w.fetches,
      trace := w.trace ++ [.AddStateCallingServiceInVerify,
        .SendPostRequest "verify" "/session/verify"
          (GetSession.body accessToken antiCsrfToken doAntiCsrfCheck)] }
  exact ⟨es, by simpa using h1, h2⟩

theorem result_congr {α : Type} (m m2 : Go α) (w w2 : World) (h : m w = m2 w2) :
    result m w = result m2 w2 := by
  simp [result, h]

theorem effects_of_trace {α : Type} (m : Go α) (w : World) (es : List Event)
    (h : (m w).2.trace = w.trace ++ es) : effects m w = es := by
  simp [effects, h]

theorem localCheck_expired (env : Env) (w : World) (accessToken : String)
    (antiCsrfToken : Option String) (doAntiCsrfCheck : Bool) (h : HandshakeInfo)
    (hfetch : env.GetHandshakeInfoInstance w.fetches = .ok h)
    (hold : ¬ h.JwtSigningPublicKeyExpiryTime > env.getCurrTimeInMS) :
    GetSession.localCheck env accessToken antiCsrfToken doAntiCsrfCheck w =
      (.ret none, { fetches := w.fetches + 1, trace := w.trace }) := by
  simp [GetSession.localCheck, Go.bind, hfetch, hold]

theorem localCheck_error (env : Env) (w : World) (accessToken : String)
    (antiCsrfToken : Option String) (doAntiCsrfCheck : Bool) (h : HandshakeInfo) (e : Error)
    (hfetch : env.GetHandshakeInfoInstance w.fetches = .ok h)
    (hfresh : h.JwtSigningPublicKeyExpiryTime > env.getCurrTimeInMS)
    (hlocal : env.getInfoFromAccessToken accessToken h.JwtSigningPublicKey
      (h.EnableAntiCsrf && doAntiCsrfCheck) = .error e) :
    GetSession.localCheck env accessToken antiCsrfToken doAntiCsrfCheck w =
      (.ret (if errors.IsTryRefreshTokenError e then none
             else some (SessionInfo.zero, some e)),
       { fetches := w.fetches + 1,
         trace := w.trace ++ [.getInfoFromAccessToken accessToken h.JwtSigningPublicKey
           (h.EnableAntiCsrf && doAntiCsrfCheck)] }) := by
  cases hk : errors.IsTryRefreshTokenError e <;>
    simp [GetSession.localCheck, getInfoFromAccessToken, Go.bind, hfetch, hfresh, hlocal, hk]

theorem localCheck_ok (env : Env) (w : World) (accessToken : String)
    (antiCsrfToken : Option String) (doAntiCsrfCheck : Bool) (h : HandshakeInfo)
    (c : AccessTokenInfo)
    (hfetch : env.GetHandshakeInfoInstance w.fetches = .ok h)
    (hfresh : h.JwtSigningPublicKeyExpiryTime > env.getCurrTimeInMS)
    (hlocal : env.getInfoFromAccessToken accessToken h.JwtSigningPublicKey
      (h.EnableAntiCsrf && doAntiCsrfCheck) = .ok c) :
    GetSession.localCheck env accessToken antiCsrfToken doAntiCsrfCheck w =
      (.ret (if (h.EnableAntiCsrf && doAntiCsrfCheck &&
                  (antiCsrfToken == none || c.antiCsrfToken == none ||
                    antiCsrfToken != c.antiCsrfToken)) = true then none
             else if (!h.AccessTokenBlacklistingEnabled &&
                  c.parentRefreshTokenHash1 == none) = true then
               some ({ Handle := c.sessionHandle, UserID := c.userID,
                       UserDataInJWT := c.userData, AccessToken := none,
                       RefreshToken := none, IDRefreshToken := none,
                       AntiCsrfToken := none }, none)
             else none),
       { fetches := w.fetches + 1,
         trace := w.trace ++ [.getInfoFromAccessToken accessToken h.JwtSigningPublicKey
           (h.EnableAntiCsrf && doAntiCsrfCheck)] }) := by
  unfold GetSession.localCheck
  simp only [bind_run, Go.bind, GetHandshakeInfoInstance_run, hfetch, hfresh, if_true,
    getInfoFromAccessToken, emit_run, pure_run, hlocal]
  split_ifs <;> rfl

theorem assertString_cases (v : Option JSON) :
    (∃ s, v = some (.string s) ∧ assertString v = Pure.pure s) ∨
      assertString v = Go.panic := by
  unfold assertString
  split
  · exact Or.inl ⟨_, rfl, rfl⟩
  · exact Or.inr rfl

theorem assertFloat64_cases (v : Option JSON) :
    (∃ n, v = some (.number n) ∧ assertFloat64 v = Pure.pure n) ∨
      assertFloat64 v = Go.panic := by
  unfold assertFloat64
  split
  · exact Or.inl ⟨_, rfl, rfl⟩
  · exact Or.inr rfl

/-- The value that the mapping of the verify response returns depends on the response and
on the decoder of session responses only. -/
theorem onResponse_result (env env2 : Env) (r : Except Error JSONObject) (w w2 : World)
    (hconv : env2.convertJSONResponseToSessionInfo = env.convertJSONResponseToSessionInfo) :
    result (GetSession.onResponse env r) w = result (GetSession.onResponse env2 r) w2 := by
  unfold GetSession.onResponse
  cases r with
  | error e => rfl
  | ok response =>
    simp only []
    split_ifs
    · unfold GetSession.onOK convertJSONResponseToSessionInfo
      rw [hconv]
      rcases assertString_cases (response.lookup "jwtSigningPublicKey") with ⟨k, -, hk⟩ | hk <;>
      rcases assertFloat64_cases (response.lookup "jwtSigningPublicKeyExpiryTime") with
        ⟨n, -, hn⟩ | hn <;>
      rcases env.convertJSONResponseToSessionInfo response with _ | si <;>
      rcases env.GetHandshakeInfoInstance w.fetches with _ | _ <;>
      rcases env2.GetHandshakeInfoInstance w2.fetches with _ | _ <;>
      simp [result, Go.bind, hk, hn, errorOf]
    · rcases assertString_cases (response.lookup "message") with ⟨k, -, hk⟩ | hk <;>
        simp [result, Go.bind, hk]
    · rcases assertString_cases (response.lookup "message") with ⟨k, -, hk⟩ | hk <;>
        simp [result, Go.bind, hk]

/-- C1. Fast-path acceptance: when the handshake fetch succeeds, the cached key is still
fresh, the local verifier returns claims `c` with no parent refresh token hash,
blacklisting is off, and anti-CSRF is not required or both tokens are present and equal,
`GetSession` returns the session built from `c` with a nil error, having consulted the
local verifier only: it sends no request to the querier. -/
theorem GetSession_fast_path (env : Env) (w : World) (accessToken : String)
    (antiCsrfToken : Option String) (doAntiCsrfCheck : Bool) (h : HandshakeInfo)
    (c : AccessTokenInfo)
    (hfetch : env.GetHandshakeInfoInstance w.fetches = .ok h)
    (hfresh : h.JwtSigningPublicKeyExpiryTime > env.getCurrTimeInMS)
    (hlocal : env.getInfoFromAccessToken accessToken h.JwtSigningPublicKey
      (h.EnableAntiCsrf && doAntiCsrfCheck) = .ok c)
    (hparent : c.parentRefreshTokenHash1 = none)
    (hblack : h.AccessTokenBlacklistingEnabled = false)
    (hcsrf : (h.EnableAntiCsrf && doAntiCsrfCheck) = false ∨
      ∃ t, antiCsrfToken = some t ∧ c.antiCsrfToken = some t) :
    GetSession env accessToken antiCsrfToken doAntiCsrfCheck w =
      (.ret ({ Handle := c.sessionHandle, UserID := c.userID, UserDataInJWT := c.userData,
               AccessToken := none, RefreshToken := none, IDRefreshToken := none,
               AntiCsrfToken := none }, none),
       { fetches := w.fetches + 1,
         trace := w.trace ++ [.getInfoFromAccessToken accessToken h.JwtSigningPublicKey
           (h.EnableAntiCsrf && doAntiCsrfCheck)] }) ∧
    ∀ e ∈ effects (GetSession env accessToken antiCsrfToken doAntiCsrfCheck) w,
      e.isQuerierRequest = false := by
  have hrun : GetSession env accessToken antiCsrfToken doAntiCsrfCheck w =
      (.ret ({ Handle := c.sessionHandle, UserID := c.userID, UserDataInJWT := c.userData,
               AccessToken := none, RefreshToken := none, IDRefreshToken := none,
               AntiCsrfToken := none }, none),
       { fetches := w.fetches + 1,
         trace := w.trace ++ [.getInfoFromAccessToken accessToken h.JwtSigningPublicKey
           (h.EnableAntiCsrf && doAntiCsrfCheck)] }) := by
    rcases hcsrf with hoff | ⟨t, rfl, ht⟩
    · have hlocal2 := hlocal
      rw [hoff] at hlocal2
      have hnot : ¬ (h.EnableAntiCsrf = true ∧ doAntiCsrfCheck = true) := by
        simpa using hoff
      simp [GetSession, GetSession.localCheck, getInfoFromAccessToken, Go.bind, hfetch,
        hfresh, hlocal2, hparent, hblack, hoff, hnot]
    · simp [GetSession, GetSession.localCheck, getInfoFromAccessToken, Go.bind, hfetch,
        hfresh, hlocal, hparent, hblack, ht]
  refine ⟨hrun, ?_⟩
  rw [effects_of_run _ _ _ _ _ hrun]
  simp [Event.isQuerierRequest]

/-- C2. Forced-remote conditions: when the handshake fetch succeeds and the local verifier
does not fail with an error other than try-refresh, and blacklisting is on, or the claims
carry a parent refresh token hash, or anti-CSRF is required and the supplied token is nil,
the token of the claims is nil, or the two differ, then `GetSession` runs the request to
the core: the verify POST is among its effects, and the value it returns is the mapping of
the querier's answer, the same for any local verifier, handshake and world. -/
theorem GetSession_forced_remote (env : Env) (w : World) (accessToken : String)
    (antiCsrfToken : Option String) (doAntiCsrfCheck : Bool) (h : HandshakeInfo)
    (hfetch : env.GetHandshakeInfoInstance w.fetches = .ok h)
    (hdecode : ∀ e, env.getInfoFromAccessToken accessToken h.JwtSigningPublicKey
      (h.EnableAntiCsrf && doAntiCsrfCheck) = .error e →
        errors.IsTryRefreshTokenError e = true)
    (hforce : h.AccessTokenBlacklistingEnabled = true ∨
      (∃ c, env.getInfoFromAccessToken accessToken h.JwtSigningPublicKey
          (h.EnableAntiCsrf && doAntiCsrfCheck) = .ok c ∧
        c.parentRefreshTokenHash1 ≠ none) ∨
      ((h.EnableAntiCsrf && doAntiCsrfCheck) = true ∧
        (antiCsrfToken = none ∨
          ∃ c, env.getInfoFromAccessToken accessToken h.JwtSigningPublicKey
              (h.EnableAntiCsrf && doAntiCsrfCheck) = .ok c ∧
            (c.antiCsrfToken = none ∨ antiCsrfToken ≠ c.antiCsrfToken)))) :
    GetSession env accessToken antiCsrfToken doAntiCsrfCheck w =
      GetSession.remote env accessToken antiCsrfToken doAntiCsrfCheck
        { fetches := w.fetches + 1,
          trace := w.trace ++
            (if h.JwtSigningPublicKeyExpiryTime > env.getCurrTimeInMS then
              [.getInfoFromAccessToken accessToken h.JwtSigningPublicKey
                (h.EnableAntiCsrf && doAntiCsrfCheck)]
             else []) } ∧
    Event.SendPostRequest "verify" "/session/verify"
        (GetSession.body accessToken antiCsrfToken doAntiCsrfCheck) ∈
      effects (GetSession env accessToken antiCsrfToken doAntiCsrfCheck) w ∧
    ∀ (env2 : Env) (w2 : World),
      env2.convertJSONResponseToSessionInfo = env.convertJSONResponseToSessionInfo →
      result (GetSession env accessToken antiCsrfToken doAntiCsrfCheck) w =
        result (GetSession.onResponse env2
          (env.SendPostRequest "verify" "/session/verify"
            (GetSession.body accessToken antiCsrfToken doAntiCsrfCheck))) w2 := by
  have hrun : GetSession env accessToken antiCsrfToken doAntiCsrfCheck w =
      GetSession.remote env accessToken antiCsrfToken doAntiCsrfCheck
        { fetches := w.fetches + 1,
          trace := w.trace ++
            (if h.JwtSigningPublicKeyExpiryTime > env.getCurrTimeInMS then
              [.getInfoFromAccessToken accessToken h.JwtSigningPublicKey
                (h.EnableAntiCsrf && doAntiCsrfCheck)]
             else []) } := by
    apply GetSession_of_fallthrough
    by_cases hfresh : h.JwtSigningPublicKeyExpiryTime > env.getCurrTimeInMS
    · rw [if_pos hfresh]
      cases hlocal : env.getInfoFromAccessToken accessToken h.JwtSigningPublicKey
          (h.EnableAntiCsrf && doAntiCsrfCheck) with
      | error e =>
        rw [localCheck_error env w _ _ _ h e hfetch hfresh hlocal, if_pos (hdecode e hlocal)]
      | ok c =>
        rw [localCheck_ok env w _ _ _ h c hfetch hfresh hlocal]
        rw [hlocal] at hforce
        by_cases hc : (h.EnableAntiCsrf && doAntiCsrfCheck &&
            (antiCsrfToken == none || c.antiCsrfToken == none ||
              antiCsrfToken != c.antiCsrfToken)) = true
        · rw [if_pos hc]
        · rw [if_neg hc]
          have hno : ¬ ((!h.AccessTokenBlacklistingEnabled &&
              c.parentRefreshTokenHash1 == none) = true) := by
            intro hacc
            rcases hforce with hb | ⟨c2, hc2, hp⟩ | ⟨hreq, hnil | ⟨c2, hc2, hm⟩⟩
            · simp [hb] at hacc
            · cases hc2
              simp at hacc
              exact hp hacc.2
            · apply hc
              simp [hreq, hnil]
            · cases hc2
              apply hc
              rw [hreq]
              rcases hm with hm | hm
              · simp [hm]
              · simp [hm]
          rw [if_neg hno]
    · rw [if_neg hfresh, List.append_nil]
      exact localCheck_expired env w _ _ _ h hfetch hfresh
  refine ⟨hrun, ?_, ?_⟩
  · obtain ⟨es, h1, -⟩ := remote_trace env
      { fetches := w.fetches + 1,
        trace := w.trace ++
          (if h.JwtSigningPublicKeyExpiryTime > env.getCurrTimeInMS then
            [.getInfoFromAccessToken accessToken h.JwtSigningPublicKey
              (h.EnableAntiCsrf && doAntiCsrfCheck)]
           else []) } accessToken antiCsrfToken doAntiCsrfCheck
    rw [← hrun] at h1
    rw [effects_of_trace _ w _ (by rw [h1, List.append_assoc])]
    simp
  · intro env2 w2 hconv
    rw [result_congr _ _ _ _ (hrun.trans (remote_run _ _ _ _ _))]
    exact onResponse_result env env2 _ _ w2 hconv


/-- The conversion to `uint64` of a non-negative finite `float64` whose integer part is
below 2^64 is that integer part. -/
theorem uint64_of_nonneg (outOfRange : Float64 → Nat) (m : Nat) (e : Int)
    (h : Float64.truncAbs m e < 2 ^ 64) :
    uint64 outOfRange (.finite false m e) = Float64.truncAbs m e := by
  simp only [uint64]
  by_cases h0 : Float64.truncAbs m e = 0
  · rw [if_pos h0, h0]
  · rw [if_neg h0, if_pos ⟨trivial, h⟩]

/-- The conversion to `uint64` of a `float64` that has exactly the value of a natural
number below 2^64 is that number. -/
theorem uint64_of_isNat (outOfRange : Float64 → Nat) (f : Float64) (n : Nat)
    (h : f.isNat n = true) (hn : n < 2 ^ 64) : uint64 outOfRange f = n := by
  cases f with
  | finite negative m e =>
    cases e with
    | ofNat k =>
      simp only [Float64.isNat, Bool.and_eq_true, beq_iff_eq, Bool.or_eq_true,
        Bool.not_eq_true'] at h
      obtain ⟨hv, hs⟩ := h
      have ht : Float64.truncAbs m (Int.ofNat k) = n := hv
      simp only [uint64]
      rw [ht]
      by_cases h0 : n = 0
      · rw [if_pos h0, h0]
      · rcases hs with hs | hs
        · rw [if_neg h0, if_pos ⟨hs, hn⟩]
        · exact (h0 hs).elim
    | negSucc k =>
      simp only [Float64.isNat, Bool.and_eq_true, beq_iff_eq, Bool.or_eq_true,
        Bool.not_eq_true'] at h
      obtain ⟨hv, hs⟩ := h
      have ht : Float64.truncAbs m (Int.negSucc k) = n := by
        show m / 2 ^ (k + 1) = n
        rw [hv]
        exact Nat.mul_div_cancel n (Nat.two_pow_pos (k + 1))
      simp only [uint64]
      rw [ht]
      by_cases h0 : n = 0
      · rw [if_pos h0, h0]
      · rcases hs with hs | hs
        · rw [if_neg h0, if_pos ⟨hs, hn⟩]
        · exact (h0 hs).elim
  | infinity negative => simp [Float64.isNat] at h
  | nan => simp [Float64.isNat] at h

/-- C3, as amended. Outcome of the remote verification: when the local check falls
through and the querier answers the verify request with `response`, then (i) on status
"OK" the handshake update is called with the key of the response and with the conversion
`uint64(...)` of its expiry time, which is the expiry time itself when that is a whole
number from 0 to 2^64 - 1 and its integer part when it is any non-negative number with an
integer part below 2^64, and the result is the decoded response with a nil error; (ii) on status "UNAUTHORISED" the result is an
`UnauthorizedError` with the message of the response; (iii) on any other status the result
is a `TryRefreshTokenError` with the message of the response; in (ii) and (iii) no
handshake update happens. -/
theorem GetSession_remote_outcome (env : Env) (w w1 : World) (accessToken : String)
    (antiCsrfToken : Option String) (doAntiCsrfCheck : Bool) (response : JSONObject)
    (hsent : GetSession.localCheck env accessToken antiCsrfToken doAntiCsrfCheck w =
      (.ret none, w1))
    (hresp : env.SendPostRequest "verify" "/session/verify"
      (GetSession.body accessToken antiCsrfToken doAntiCsrfCheck) = .ok response) :
    (∀ key expiry si, fieldIs response "status" "OK" = true →
      response.lookup "jwtSigningPublicKey" = some (.string key) →
      response.lookup "jwtSigningPublicKeyExpiryTime" = some (.number expiry) →
      env.convertJSONResponseToSessionInfo response = some si →
      GetSession env accessToken antiCsrfToken doAntiCsrfCheck w =
        (.ret (si, none),
         { fetches := w1.fetches + 1,
           trace := w1.trace ++ [.AddStateCallingServiceInVerify,
             .SendPostRequest "verify" "/session/verify"
               (GetSession.body accessToken antiCsrfToken doAntiCsrfCheck),
             .UpdateJwtSigningPublicKeyInfo
               (env.GetHandshakeInfoInstance w1.fetches).toOption key
                 (uint64 env.uint64OutOfRange expiry)] }) ∧
      (∀ n, expiry.isNat n = true → n < 2 ^ 64 →
        uint64 env.uint64OutOfRange expiry = n) ∧
      (∀ m e, expiry = .finite false m e → Float64.truncAbs m e < 2 ^ 64 →
        uint64 env.uint64OutOfRange expiry = Float64.truncAbs m e)) ∧
    (∀ msg, fieldIs response "status" "UNAUTHORISED" = true →
      response.lookup "message" = some (.string msg) →
      GetSession env accessToken antiCsrfToken doAntiCsrfCheck w =
        (.ret (SessionInfo.zero, some (.UnauthorizedError msg)),
         { fetches := w1.fetches,
           trace := w1.trace ++ [.AddStateCallingServiceInVerify,
             .SendPostRequest "verify" "/session/verify"
               (GetSession.body accessToken antiCsrfToken doAntiCsrfCheck)] }) ∧
      ∀ e ∈ effects (GetSession.remote env accessToken antiCsrfToken doAntiCsrfCheck) w1,
        e.isHandshakeUpdate = false) ∧
    (∀ msg, fieldIs response "status" "OK" = false →
      fieldIs response "status" "UNAUTHORISED" = false →
      response.lookup "message" = some (.string msg) →
      GetSession env accessToken antiCsrfToken doAntiCsrfCheck w =
        (.ret (SessionInfo.zero, some (.TryRefreshTokenError msg)),
         { fetches := w1.fetches,
           trace := w1.trace ++ [.AddStateCallingServiceInVerify,
             .SendPostRequest "verify" "/session/verify"
               (GetSession.body accessToken antiCsrfToken doAntiCsrfCheck)] }) ∧
      ∀ e ∈ effects (GetSession.remote env accessToken antiCsrfToken doAntiCsrfCheck) w1,
        e.isHandshakeUpdate = false) := by
  have hrun := (GetSession_of_fallthrough env w w1 _ _ _ hsent).trans (remote_run env w1 _ _ _)
  rw [hresp] at hrun
  refine ⟨?_, ?_, ?_⟩
  · intro key expiry si hok hkey hexp hconv
    refine ⟨?_, fun n hnat hn => uint64_of_isNat _ expiry n hnat hn, ?_⟩
    · rw [hrun]
      cases hf : env.GetHandshakeInfoInstance w1.fetches <;>
        simp [GetSession.onResponse, GetSession.onOK, hok, hkey, hexp, hconv, Go.bind,
          assertString, assertFloat64, errorOf, convertJSONResponseToSessionInfo, hf,
          Except.toOption]
    · intro m e hfin ht
      rw [hfin]
      exact uint64_of_nonneg _ m e ht
  · intro msg hun hmsg
    have hok := fieldIs_exclusive response "status" "UNAUTHORISED" "OK" (by decide) hun
    have hrem : GetSession.remote env accessToken antiCsrfToken doAntiCsrfCheck w1 =
        (.ret (SessionInfo.zero, some (.UnauthorizedError msg)),
         { fetches := w1.fetches,
           trace := w1.trace ++ [.AddStateCallingServiceInVerify,
             .SendPostRequest "verify" "/session/verify"
               (GetSession.body accessToken antiCsrfToken doAntiCsrfCheck)] }) := by
      rw [remote_run, hresp]
      simp [GetSession.onResponse, hok, hun, hmsg, Go.bind, assertString]
    refine ⟨(GetSession_of_fallthrough env w w1 _ _ _ hsent).trans hrem, ?_⟩
    rw [effects_of_run _ _ _ _ _ hrem]
    simp [Event.isHandshakeUpdate]
  · intro msg hok hun hmsg
    have hrem : GetSession.remote env accessToken antiCsrfToken doAntiCsrfCheck w1 =
        (.ret (SessionInfo.zero, some (.TryRefreshTokenError msg)),
         { fetches := w1.fetches,
           trace := w1.trace ++ [.AddStateCallingServiceInVerify,
             .SendPostRequest "verify" "/session/verify"
               (GetSession.body accessToken antiCsrfToken doAntiCsrfCheck)] }) := by
      rw [remote_run, hresp]
      simp [GetSession.onResponse, hok, hun, hmsg, Go.bind, assertString]
    refine ⟨(GetSession_of_fallthrough env w w1 _ _ _ hsent).trans hrem, ?_⟩
    rw [effects_of_run _ _ _ _ _ hrem]
    simp [Event.isHandshakeUpdate]

theorem adds_assertMap (P : Event → Prop) (v : Option JSON) : Adds P (assertMap v) := by
  unfold core.assertMap
  split
  · exact adds_pure P _
  · exact adds_panic P

theorem adds_refreshOnResponse (env : Env) (r : Except Error JSONObject) :
    Adds (fun _ => False) (RefreshSession.onResponse env r) := by
  unfold RefreshSession.onResponse
  split
  · exact adds_pure _ _
  · split_ifs
    · exact adds_bind _ _ _ (adds_convert _ env _) fun s => adds_pure _ _
    · exact adds_bind _ _ _ (adds_assertString _ _) fun msg => adds_pure _ _
    · refine adds_bind _ _ _ (adds_assertMap _ _) fun s1 => ?_
      refine adds_bind _ _ _ (adds_assertString _ _) fun hd => ?_
      refine adds_bind _ _ _ (adds_assertMap _ _) fun s2 => ?_
      exact adds_bind _ _ _ (adds_assertString _ _) fun u => adds_pure _ _

theorem adds_nothing {α : Type} (m : Go α) (h : Adds (fun _ => False) m) (w : World) :
    (m w).2.trace = w.trace := by
  obtain ⟨es, h1, h2⟩ := h w
  cases es with
  | nil => simpa using h1
  | cons e es => exact (h2 e (List.mem_cons_self e es)).elim

theorem RefreshSession_run (env : Env) (w : World) (refreshToken : String)
    (antiCsrfToken : Option String) :
    RefreshSession env refreshToken antiCsrfToken w =
      RefreshSession.onResponse env
        (env.SendPostRequest "refresh" "/session/refresh"
          (RefreshSession.body refreshToken antiCsrfToken))
        { fetches := w.fetches,
          trace := w.trace ++ [.SendPostRequest "refresh" "/session/refresh"
            (RefreshSession.body refreshToken antiCsrfToken)] } := by
  simp [RefreshSession, SendPostRequest, Go.bind]

/-- C4. Outcome of the rotation: when the querier answers the refresh request with
`response`, the result of `RefreshSession` is the decoded response with a nil error on
status "OK", an `UnauthorizedError` with the message of the response on status
"UNAUTHORISED", and on any other status a `TokenTheftDetectedError` whose session handle
and user id are those of the session descriptor of the response; the one request sent has
a body whose `antiCsrfToken` entry is the supplied token, present exactly when the token
is not nil. -/
theorem RefreshSession_outcome (env : Env) (w : World) (refreshToken : String)
    (antiCsrfToken : Option String) (response : JSONObject)
    (hresp : env.SendPostRequest "refresh" "/session/refresh"
      (RefreshSession.body refreshToken antiCsrfToken) = .ok response) :
    (∀ si, fieldIs response "status" "OK" = true →
      env.convertJSONResponseToSessionInfo response = some si →
      RefreshSession env refreshToken antiCsrfToken w =
        (.ret (si, none),
         { fetches := w.fetches,
           trace := w.trace ++ [.SendPostRequest "refresh" "/session/refresh"
             (RefreshSession.body refreshToken antiCsrfToken)] })) ∧
    (∀ msg, fieldIs response "status" "UNAUTHORISED" = true →
      response.lookup "message" = some (.string msg) →
      RefreshSession env refreshToken antiCsrfToken w =
        (.ret (SessionInfo.zero, some (.UnauthorizedError msg)),
         { fetches := w.fetches,
           trace := w.trace ++ [.SendPostRequest "refresh" "/session/refresh"
             (RefreshSession.body refreshToken antiCsrfToken)] })) ∧
    (∀ session handle userId, fieldIs response "status" "OK" = false →
      fieldIs response "status" "UNAUTHORISED" = false →
      response.lookup "session" = some (.object session) →
      session.lookup "handle" = some (.string handle) →
      session.lookup "userId" = some (.string userId) →
      RefreshSession env refreshToken antiCsrfToken w =
        (.ret (SessionInfo.zero,
           some (.TokenTheftDetectedError "Token theft detected" handle userId)),
         { fetches := w.fetches,
           trace := w.trace ++ [.SendPostRequest "refresh" "/session/refresh"
             (RefreshSession.body refreshToken antiCsrfToken)] })) ∧
    effects (RefreshSession env refreshToken antiCsrfToken) w =
      [.SendPostRequest "refresh" "/session/refresh"
        (RefreshSession.body refreshToken antiCsrfToken)] ∧
    (RefreshSession.body refreshToken antiCsrfToken).lookup "antiCsrfToken" =
      antiCsrfToken.map JSON.string := by
  refine ⟨?_, ?_, ?_, ?_, ?_⟩
  · intro si hok hconv
    rw [RefreshSession_run, hresp]
    simp [RefreshSession.onResponse, hok, hconv, Go.bind, convertJSONResponseToSessionInfo]
  · intro msg hun hmsg
    have hok := fieldIs_exclusive response "status" "UNAUTHORISED" "OK" (by decide) hun
    rw [RefreshSession_run, hresp]
    simp [RefreshSession.onResponse, hok, hun, hmsg, Go.bind, assertString]
  · intro session handle userId hok hun hs hh hu
    rw [RefreshSession_run, hresp]
    simp [RefreshSession.onResponse, hok, hun, hs, hh, hu, Go.bind, assertString, assertMap]
  · apply effects_of_trace
    rw [RefreshSession_run, adds_nothing _ (adds_refreshOnResponse env _)]
  · cases antiCsrfToken <;> simp [RefreshSession.body, antiCsrfEntry, List.lookup]

theorem isLocalVerify_of_update (e : Event) (h : e.isHandshakeUpdate = true) :
    e.isLocalVerify = false := by
  cases e <;> simp_all [Event.isHandshakeUpdate, Event.isLocalVerify]

/-- C6. An expired signing key skips the local check: when the handshake fetch succeeds and
the cached key expiry time is not greater than the current time, `GetSession` does not
consult the local verifier and sends the verify request; if the response to it has status
"TRY_REFRESH_TOKEN", the result is a `TryRefreshTokenError`. -/
theorem GetSession_expired_key (env : Env) (w : World) (accessToken : String)
    (antiCsrfToken : Option String) (doAntiCsrfCheck : Bool) (h : HandshakeInfo)
    (hfetch : env.GetHandshakeInfoInstance w.fetches = .ok h)
    (hold : ¬ h.JwtSigningPublicKeyExpiryTime > env.getCurrTimeInMS) :
    (∀ e ∈ effects (GetSession env accessToken antiCsrfToken doAntiCsrfCheck) w,
      e.isLocalVerify = false) ∧
    (∃ es, effects (GetSession env accessToken antiCsrfToken doAntiCsrfCheck) w =
      .AddStateCallingServiceInVerify ::
        .SendPostRequest "verify" "/session/verify"
          (GetSession.body accessToken antiCsrfToken doAntiCsrfCheck) :: es) ∧
    ∀ response msg, env.SendPostRequest "verify" "/session/verify"
        (GetSession.body accessToken antiCsrfToken doAntiCsrfCheck) = .ok response →
      fieldIs response "status" "TRY_REFRESH_TOKEN" = true →
      response.lookup "message" = some (.string msg) →
      GetSession env accessToken antiCsrfToken doAntiCsrfCheck w =
        (.ret (SessionInfo.zero, some (.TryRefreshTokenError msg)),
         { fetches := w.fetches + 1,
           trace := w.trace ++ [.AddStateCallingServiceInVerify,
             .SendPostRequest "verify" "/session/verify"
               (GetSession.body accessToken antiCsrfToken doAntiCsrfCheck)] }) := by
  have hlc := localCheck_expired env w accessToken antiCsrfToken doAntiCsrfCheck h hfetch hold
  have hrun := GetSession_of_fallthrough env w _ _ _ _ hlc
  obtain ⟨es, h1, h2⟩ := remote_trace env { fetches := w.fetches + 1, trace := w.trace }
    accessToken antiCsrfToken doAntiCsrfCheck
  rw [← hrun] at h1
  have heff := effects_of_trace _ w _ h1
  refine ⟨?_, ⟨es, heff⟩, ?_⟩
  · intro e he
    rw [heff] at he
    rcases List.mem_cons.1 he with rfl | he
    · rfl
    rcases List.mem_cons.1 he with rfl | he
    · rfl
    · exact isLocalVerify_of_update e (h2 e he)
  · intro response msg hresp hst hmsg
    have hok := fieldIs_exclusive response "status" "TRY_REFRESH_TOKEN" "OK" (by decide) hst
    have hun := fieldIs_exclusive response "status" "TRY_REFRESH_TOKEN" "UNAUTHORISED"
      (by decide) hst
    rw [hrun, remote_run, hresp]
    simp [GetSession.onResponse, hok, hun, hmsg, Go.bind, assertString]

/-- C7. Failure of the local verification: when the signing key is fresh and the local
verifier fails with `e`, then if `e` is a try-refresh error `GetSession` goes on to the
verify request, and otherwise it returns the zero session with `e` itself and sends no
request to the querier. -/
theorem GetSession_local_failure (env : Env) (w : World) (accessToken : String)
    (antiCsrfToken : Option String) (doAntiCsrfCheck : Bool) (h : HandshakeInfo) (e : Error)
    (hfetch : env.GetHandshakeInfoInstance w.fetches = .ok h)
    (hfresh : h.JwtSigningPublicKeyExpiryTime > env.getCurrTimeInMS)
    (hlocal : env.getInfoFromAccessToken accessToken h.JwtSigningPublicKey
      (h.EnableAntiCsrf && doAntiCsrfCheck) = .error e) :
    (errors.IsTryRefreshTokenError e = true →
      GetSession env accessToken antiCsrfToken doAntiCsrfCheck w =
        GetSession.remote env accessToken antiCsrfToken doAntiCsrfCheck
          { fetches := w.fetches + 1,
            trace := w.trace ++ [.getInfoFromAccessToken accessToken h.JwtSigningPublicKey
              (h.EnableAntiCsrf && doAntiCsrfCheck)] } ∧
      Event.SendPostRequest "verify" "/session/verify"
          (GetSession.body accessToken antiCsrfToken doAntiCsrfCheck) ∈
        effects (GetSession env accessToken antiCsrfToken doAntiCsrfCheck) w) ∧
    (errors.IsTryRefreshTokenError e = false →
      GetSession env accessToken antiCsrfToken doAntiCsrfCheck w =
        (.ret (SessionInfo.zero, some e),
         { fetches := w.fetches + 1,
           trace := w.trace ++ [.getInfoFromAccessToken accessToken h.JwtSigningPublicKey
             (h.EnableAntiCsrf && doAntiCsrfCheck)] }) ∧
      ∀ ev ∈ effects (GetSession env accessToken antiCsrfToken doAntiCsrfCheck) w,
        ev.isQuerierRequest = false) := by
  have hlc := localCheck_error env w accessToken antiCsrfToken doAntiCsrfCheck h e hfetch
    hfresh hlocal
  constructor
  · intro hk
    rw [hk, if_pos rfl] at hlc
    have hrun := GetSession_of_fallthrough env w _ _ _ _ hlc
    refine ⟨hrun, ?_⟩
    obtain ⟨es, h1, -⟩ := remote_trace env
      { fetches := w.fetches + 1,
        trace := w.trace ++ [.getInfoFromAccessToken accessToken h.JwtSigningPublicKey
          (h.EnableAntiCsrf && doAntiCsrfCheck)] } accessToken antiCsrfToken doAntiCsrfCheck
    rw [← hrun] at h1
    rw [effects_of_trace _ w _ (by rw [h1, List.append_assoc])]
    simp
  · intro hk
    rw [hk] at hlc
    have hrun := GetSession_of_early env w _ _ _ _ _ hlc
    refine ⟨hrun, ?_⟩
    rw [effects_of_run _ _ _ _ _ hrun]
    simp [Event.isQuerierRequest]

theorem GetSession_fast_path_witness :
    GetSession (demo.env (demo.handshake 2000 true false) (.ok (demo.claims none))
        (.error (.GeneralError "unreachable"))) "token" (some "csrf") true demo.w0 =
      (.ret ({ Handle := "h1", UserID := "u1",
               UserDataInJWT := some [("role", .string "admin")], AccessToken := none,
               RefreshToken := none, IDRefreshToken := none, AntiCsrfToken := none }, none),
       { fetches := 1, trace := [.getInfoFromAccessToken "token" "pk" true] }) :=
  (GetSession_fast_path
    (demo.env (demo.handshake 2000 true false) (.ok (demo.claims none))
      (.error (.GeneralError "unreachable")))
    demo.w0 "token" (some "csrf") true (demo.handshake 2000 true false) (demo.claims none)
    rfl (by decide) rfl rfl rfl (Or.inr ⟨"csrf", rfl, rfl⟩)).1

theorem GetSession_forced_remote_witness :
    Event.SendPostRequest "verify" "/session/verify"
        (GetSession.body "token" (some "csrf") true) ∈
      effects (GetSession (demo.env (demo.handshake 2000 true true) (.ok (demo.claims none))
        (.ok (demo.failResponse "UNAUTHORISED" "revoked"))) "token" (some "csrf") true)
        demo.w0 :=
  (GetSession_forced_remote
    (demo.env (demo.handshake 2000 true true) (.ok (demo.claims none))
      (.ok (demo.failResponse "UNAUTHORISED" "revoked")))
    demo.w0 "token" (some "csrf") true (demo.handshake 2000 true true) rfl
    (fun _ hne => nomatch hne) (Or.inl rfl)).2.1

theorem GetSession_remote_outcome_witness :
    GetSession (demo.env (demo.handshake 500 false false) (.ok (demo.claims none))
        (.ok demo.okResponse)) "token" none false demo.w0 =
      (.ret ({ Handle := "h1", UserID := "u1", UserDataInJWT := none, AccessToken := none,
               RefreshToken := none, IDRefreshToken := none, AntiCsrfToken := none }, none),
       { fetches := 2,
         trace := [.AddStateCallingServiceInVerify,
           .SendPostRequest "verify" "/session/verify" (GetSession.body "token" none false),
           .UpdateJwtSigningPublicKeyInfo (some (demo.handshake 500 false false)) "pk2"
             9000] }) :=
  ((GetSession_remote_outcome
    (demo.env (demo.handshake 500 false false) (.ok (demo.claims none))
      (.ok demo.okResponse))
    demo.w0 { fetches := 1, trace := [] } "token" none false demo.okResponse rfl rfl).1
    "pk2" (.finite false 9000 0) _ rfl rfl rfl rfl).1

/-- C3, counterexample. At a verify response with status "OK" whose
`jwtSigningPublicKeyExpiryTime` is 9000.5, `GetSession` calls the handshake update with the
expiry time 9000, which is not the expiry time of the response. -/
theorem GetSession_remote_outcome_inexact :
    fieldIs demo.fractionalResponse "status" "OK" = true ∧
    demo.fractionalResponse.lookup "jwtSigningPublicKeyExpiryTime" =
      some (.number (.finite false 18001 (Int.negSucc 0))) ∧
    (GetSession (demo.env (demo.handshake 500 false false) (.ok (demo.claims none))
        (.ok demo.fractionalResponse)) "token" none false demo.w0).2.trace =
      [.AddStateCallingServiceInVerify,
       .SendPostRequest "verify" "/session/verify" (GetSession.body "token" none false),
       .UpdateJwtSigningPublicKeyInfo (some (demo.handshake 500 false false)) "pk2" 9000] ∧
    Float64.isNat (.finite false 18001 (Int.negSucc 0)) 9000 = false :=
  ⟨rfl, rfl, rfl, rfl⟩

theorem RefreshSession_outcome_witness :
    RefreshSession (demo.env (demo.handshake 2000 false false) (.ok (demo.claims none))
        (.ok demo.theftResponse)) "old-refresh-token" none demo.w0 =
      (.ret (SessionInfo.zero,
         some (.TokenTheftDetectedError "Token theft detected" "h1" "u1")),
       { fetches := 0,
         trace := [.SendPostRequest "refresh" "/session/refresh"
           [("refreshToken", .string "old-refresh-token")]] }) :=
  (RefreshSession_outcome
    (demo.env (demo.handshake 2000 false false) (.ok (demo.claims none))
      (.ok demo.theftResponse))
    demo.w0 "old-refresh-token" none demo.theftResponse rfl).2.2.1
    [("handle", .string "h1"), ("userId", .string "u1")] "h1" "u1" rfl rfl rfl rfl rfl

theorem GetSession_expired_key_witness :
    GetSession (demo.env (demo.handshake 500 false false) (.ok (demo.claims none))
        (.ok (demo.failResponse "TRY_REFRESH_TOKEN" "expired"))) "expired-token" none false
        demo.w0 =
      (.ret (SessionInfo.zero, some (.TryRefreshTokenError "expired")),
       { fetches := 1,
         trace := [.AddStateCallingServiceInVerify,
           .SendPostRequest "verify" "/session/verify"
             (GetSession.body "expired-token" none false)] }) :=
  (GetSession_expired_key
    (demo.env (demo.handshake 500 false false) (.ok (demo.claims none))
      (.ok (demo.failResponse "TRY_REFRESH_TOKEN" "expired")))
    demo.w0 "expired-token" none false (demo.handshake 500 false false) rfl
    (by decide)).2.2 (demo.failResponse "TRY_REFRESH_TOKEN" "expired") "expired" rfl rfl rfl

theorem GetSession_local_failure_witness :
    GetSession (demo.env (demo.handshake 2000 false false)
        (.error (.GeneralError "bad token")) (.error (.GeneralError "unreachable")))
        "token" none false demo.w0 =
      (.ret (SessionInfo.zero, some (.GeneralError "bad token")),
       { fetches := 1, trace := [.getInfoFromAccessToken "token" "pk" false] }) :=
  ((GetSession_local_failure
    (demo.env (demo.handshake 2000 false false) (.error (.GeneralError "bad token"))
      (.error (.GeneralError "unreachable")))
    demo.w0 "token" none false (demo.handshake 2000 false false) (.GeneralError "bad token")
    rfl (by decide) rfl).2 rfl).1

theorem returns_pure {α : Type} (Q : α → Prop) (a : α) (h : Q a) :
    Returns Q (Pure.pure a : Go α) := by
  intro w b w2 hb
  cases hb
  exact h

theorem returns_panic {α : Type} (Q : α → Prop) : Returns Q (Go.panic : Go α) := by
  intro w b w2 hb
  cases hb

theorem returns_bind {α β : Type} (P : α → Prop) (Q : β → Prop) (m : Go α) (f : α → Go β)
    (hm : Returns P m) (hf : ∀ a, P a → Returns Q (f a)) : Returns Q (m >>= f) := by
  intro w b w2 hb
  rw [bind_run] at hb
  unfold Go.bind at hb
  rcases hmw : m w with ⟨o, w1⟩
  rw [hmw] at hb
  cases o with
  | panic => cases hb
  | ret a => exact hf a (hm w a w1 hmw) w1 b w2 hb

theorem returns_any {α : Type} (m : Go α) : Returns (fun _ => True) m :=
  fun _ _ _ _ => trivial

theorem returns_onResponse (env : Env) (r : Except Error JSONObject) :
    Returns zeroOnError (GetSession.onResponse env r) := by
  unfold GetSession.onResponse
  split
  · exact returns_pure _ _ fun _ => rfl
  · split_ifs
    · unfold GetSession.onOK
      refine returns_bind _ _ _ _ (returns_any _) fun handShake _ => ?_
      split
      · exact returns_pure _ _ fun _ => rfl
      · refine returns_bind _ _ _ _ (returns_any _) fun key _ => ?_
        refine returns_bind _ _ _ _ (returns_any _) fun expiry _ => ?_
        refine returns_bind _ _ _ _ (returns_any _) fun _ _ => ?_
        refine returns_bind _ _ _ _ (returns_any _) fun si _ => ?_
        exact returns_pure _ _ fun hne => (hne rfl).elim
    · exact returns_bind _ _ _ _ (returns_any _) fun msg _ =>
        returns_pure _ _ fun _ => rfl
    · exact returns_bind _ _ _ _ (returns_any _) fun msg _ =>
        returns_pure _ _ fun _ => rfl

theorem returns_localCheck (env : Env) (accessToken : String)
    (antiCsrfToken : Option String) (doAntiCsrfCheck : Bool) :
    Returns (fun o => ∀ r, o = some r → zeroOnError r)
      (GetSession.localCheck env accessToken antiCsrfToken doAntiCsrfCheck) := by
  unfold GetSession.localCheck
  refine returns_bind _ _ _ _ (returns_any _) fun hs _ => ?_
  split
  · exact returns_pure _ _ fun r hr => by cases hr; exact fun _ => rfl
  · split_ifs
    · refine returns_bind _ _ _ _ (returns_any _) fun dec _ => ?_
      split
      · split_ifs
        · exact returns_pure _ _ fun r hr => by cases hr
        · exact returns_pure _ _ fun r hr => by cases hr; exact fun hne => (hne rfl).elim
        · exact returns_pure _ _ fun r hr => by cases hr
      · split_ifs
        · exact returns_pure _ _ fun r hr => by cases hr; exact fun _ => rfl
        · exact returns_pure _ _ fun r hr => by cases hr
    · exact returns_pure _ _ fun r hr => by cases hr

/-- Every error return of `GetSession` carries the zero session `SessionInfo{}`. -/
theorem GetSession_zeroOnError (env : Env) (accessToken : String)
    (antiCsrfToken : Option String) (doAntiCsrfCheck : Bool) :
    Returns zeroOnError (GetSession env accessToken antiCsrfToken doAntiCsrfCheck) := by
  unfold GetSession
  refine returns_bind _ _ _ _ (returns_localCheck env _ _ _) fun o ho => ?_
  split
  · exact returns_pure _ _ (ho _ rfl)
  · unfold GetSession.remote
    refine returns_bind _ _ _ _ (returns_any _) fun _ _ => ?_
    refine returns_bind _ _ _ _ (returns_any _) fun r _ => ?_
    exact returns_onResponse env r

theorem convertInterfaceArrayToStringArray_strings (hs : List String) (w : World) :
    convertInterfaceArrayToStringArray (hs.map JSON.string) w = (.ret hs, w) := by
  induction hs with
  | nil => rfl
  | cons x xs ih =>
    simp [convertInterfaceArrayToStringArray, assertString, Go.bind, ih]

/-- C9. Idempotent revoke: when the querier answers the revoke request with a response
whose `sessionHandlesRevoked` is the list `xs`, `RevokeSession` returns whether `xs` has
length 1, with a nil error, so for the empty list it returns false and no error; and when
the revoked list of the response is the list of handles `hs`, `RevokeMultipleSessions` and
`RevokeAllSessionsForUser` return `hs` with a nil error, the empty list included. -/
theorem revoke_idempotent (env : Env) (w : World) (sessionHandle userID : String)
    (sessionHandles : List String) (r1 r2 r3 : JSONObject)
    (h1 : env.SendPostRequest "revoke" "/session/remove"
      [("sessionHandles", .array [.string sessionHandle])] = .ok r1)
    (h2 : env.SendPostRequest "revokemultiple" "/session/remove"
      [("sessionHandles", .array (sessionHandles.map .string))] = .ok r2)
    (h3 : env.SendPostRequest "revokeall" "/session/remove"
      [("userId", .string userID)] = .ok r3) :
    (r1.lookup "sessionHandlesRevoked" = some (.array []) →
      result (RevokeSession env sessionHandle) w = some (false, none)) ∧
    (∀ xs, r1.lookup "sessionHandlesRevoked" = some (.array xs) →
      result (RevokeSession env sessionHandle) w = some (decide (xs.length = 1), none)) ∧
    (∀ hs, r2.lookup "sessionHandlesRevoked" = some (.array (hs.map .string)) →
      result (RevokeMultipleSessions env sessionHandles) w = some (some hs, none)) ∧
    (∀ hs, r3.lookup "sessionHandlesRevoked" = some (.array (hs.map .string)) →
      result (RevokeAllSessionsForUser env userID) w = some (some hs, none)) := by
  refine ⟨?_, ?_, ?_, ?_⟩
  · intro hl
    simp [result, RevokeSession, SendPostRequest, Go.bind, h1, hl, assertArray]
  · intro xs hl
    simp [result, RevokeSession, SendPostRequest, Go.bind, h1, hl, assertArray]
    rw [Bool.eq_iff_iff]
    simp
  · intro hs hl
    simp [result, RevokeMultipleSessions, SendPostRequest, Go.bind, h2, hl, assertArray,
      convertInterfaceArrayToStringArray_strings]
  · intro hs hl
    simp [result, RevokeAllSessionsForUser, SendPostRequest, Go.bind, h3, hl, assertArray,
      convertInterfaceArrayToStringArray_strings]

theorem revoke_idempotent_witness :
    result (RevokeSession (demo.env (demo.handshake 2000 false false)
        (.ok (demo.claims none)) (.ok [("status", .string "OK"),
          ("sessionHandlesRevoked", .array [])])) "unknown-handle") demo.w0 =
      some (false, none) :=
  (revoke_idempotent
    (demo.env (demo.handshake 2000 false false) (.ok (demo.claims none))
      (.ok [("status", .string "OK"), ("sessionHandlesRevoked", .array [])]))
    demo.w0 "unknown-handle" "u1" ["unknown-handle"] _ _ _ rfl rfl rfl).1 rfl

/-- C10. The data and payload accessors: when the response of the core has status
"UNAUTHORISED", each of `GetSessionData`, `UpdateSessionData`, `GetJWTPayload` and
`UpdateJWTPayload` returns an `UnauthorizedError` with the message of the response, the
getters with a nil map; when the status is "OK", the getters return the map
`userDataInDatabase`, respectively `userDataInJWT`, of the response with a nil error and
the updaters return nil. -/
theorem accessors_outcome (env : Env) (w : World) (sessionHandle : String)
    (newSessionData newJWTPayload : JSONObject) (r1 r2 r3 r4 : JSONObject)
    (h1 : env.SendGetRequest "getsessiondata" "/session/data"
      [("sessionHandle", sessionHandle)] = .ok r1)
    (h2 : env.SendPutRequest "updatesessiondata" "/session/data"
      [("sessionHandle", .string sessionHandle),
       ("userDataInDatabase", .object newSessionData)] = .ok r2)
    (h3 : env.SendGetRequest "getjwtpayload" "/jwt/data"
      [("sessionHandle", sessionHandle)] = .ok r3)
    (h4 : env.SendPutRequest "updatejwtpayload" "/jwt/data"
      [("sessionHandle", .string sessionHandle),
       ("userDataInJWT", .object newJWTPayload)] = .ok r4) :
    (∀ msg, fieldIs r1 "status" "UNAUTHORISED" = true →
      r1.lookup "message" = some (.string msg) →
      result (GetSessionData env sessionHandle) w =
        some (none, some (.UnauthorizedError msg))) ∧
    (∀ msg, fieldIs r2 "status" "UNAUTHORISED" = true →
      r2.lookup "message" = some (.string msg) →
      result (UpdateSessionData env sessionHandle newSessionData) w =
        some (some (.UnauthorizedError msg))) ∧
    (∀ msg, fieldIs r3 "status" "UNAUTHORISED" = true →
      r3.lookup "message" = some (.string msg) →
      result (GetJWTPayload env sessionHandle) w =
        some (none, some (.UnauthorizedError msg))) ∧
    (∀ msg, fieldIs r4 "status" "UNAUTHORISED" = true →
      r4.lookup "message" = some (.string msg) →
      result (UpdateJWTPayload env sessionHandle newJWTPayload) w =
        some (some (.UnauthorizedError msg))) ∧
    (∀ data, fieldIs r1 "status" "OK" = true →
      r1.lookup "userDataInDatabase" = some (.object data) →
      result (GetSessionData env sessionHandle) w = some (some data, none)) ∧
    (fieldIs r2 "status" "OK" = true →
      result (UpdateSessionData env sessionHandle newSessionData) w = some none) ∧
    (∀ data, fieldIs r3 "status" "OK" = true →
      r3.lookup "userDataInJWT" = some (.object data) →
      result (GetJWTPayload env sessionHandle) w = some (some data, none)) ∧
    (fieldIs r4 "status" "OK" = true →
      result (UpdateJWTPayload env sessionHandle newJWTPayload) w = some none) := by
  refine ⟨?_, ?_, ?_, ?_, ?_, ?_, ?_, ?_⟩
  · intro msg hun hmsg
    have hok := fieldIs_exclusive r1 "status" "UNAUTHORISED" "OK" (by decide) hun
    simp [result, GetSessionData, SendGetRequest, Go.bind, h1, hok, hmsg, assertString]
  · intro msg hun hmsg
    simp [result, UpdateSessionData, SendPutRequest, Go.bind, h2, hun, hmsg, assertString]
  · intro msg hun hmsg
    have hok := fieldIs_exclusive r3 "status" "UNAUTHORISED" "OK" (by decide) hun
    simp [result, GetJWTPayload, SendGetRequest, Go.bind, h3, hok, hmsg, assertString]
  · intro msg hun hmsg
    simp [result, UpdateJWTPayload, SendPutRequest, Go.bind, h4, hun, hmsg, assertString]
  · intro data hok hdata
    simp [result, GetSessionData, SendGetRequest, Go.bind, h1, hok, hdata, assertMap]
  · intro hok
    have hun := fieldIs_exclusive r2 "status" "OK" "UNAUTHORISED" (by decide) hok
    simp [result, UpdateSessionData, SendPutRequest, Go.bind, h2, hun]
  · intro data hok hdata
    simp [result, GetJWTPayload, SendGetRequest, Go.bind, h3, hok, hdata, assertMap]
  · intro hok
    have hun := fieldIs_exclusive r4 "status" "OK" "UNAUTHORISED" (by decide) hok
    simp [result, UpdateJWTPayload, SendPutRequest, Go.bind, h4, hun]

theorem accessors_outcome_witness :
    result (GetSessionData (demo.env (demo.handshake 2000 false false)
        (.ok (demo.claims none)) (.ok (demo.failResponse "UNAUTHORISED" "no such session")))
        "revoked-handle") demo.w0 =
      some (none, some (.UnauthorizedError "no such session")) :=
  (accessors_outcome
    (demo.env (demo.handshake 2000 false false) (.ok (demo.claims none))
      (.ok (demo.failResponse "UNAUTHORISED" "no such session")))
    demo.w0 "revoked-handle" [] [] _ _ _ _ rfl rfl rfl rfl).1 "no such session" rfl rfl

/-- Whenever the "OK" branch of the verify response returns after a request without
transport error, it returns a nil error. -/
theorem returns_onOK_nil (env : Env) (response : JSONObject) :
    Returns (fun r => r.2 = none) (GetSession.onOK env response none) := by
  unfold GetSession.onOK
  refine returns_bind _ _ _ _ (returns_any _) fun handShake _ => ?_
  split
  · rename_i heq
    cases heq
  · refine returns_bind _ _ _ _ (returns_any _) fun key _ => ?_
    refine returns_bind _ _ _ _ (returns_any _) fun expiry _ => ?_
    refine returns_bind _ _ _ _ (returns_any _) fun _ _ => ?_
    refine returns_bind _ _ _ _ (returns_any _) fun si _ => ?_
    exact returns_pure _ _ rfl

/-- C11. Handshake-fetch errors in `GetSession`.  If the first handshake fetch fails with
`e`, `GetSession` returns the zero session with `e` and has no effect at all: neither the
local verifier nor the querier is consulted.  In the "OK" branch of the verify response
the guard on the second fetch returns the fetch error only under a transport error, which
is nil there: when the second fetch fails, control still goes on to the call of
`UpdateJwtSigningPublicKeyInfo`, which is made on a nil receiver as soon as the key and
the expiry time of the response have the asserted types; and whatever the fields of the
response, a value returned in this branch never carries an error, so the failure of the
second fetch is never returned. -/
theorem GetSession_handshake_errors (env : Env) (w : World) (accessToken : String)
    (antiCsrfToken : Option String) (doAntiCsrfCheck : Bool) :
    (∀ e, env.GetHandshakeInfoInstance w.fetches = .error e →
      GetSession env accessToken antiCsrfToken doAntiCsrfCheck w =
        (.ret (SessionInfo.zero, some e), { fetches := w.fetches + 1, trace := w.trace }) ∧
      effects (GetSession env accessToken antiCsrfToken doAntiCsrfCheck) w = []) ∧
    (∀ w1 response e2 key expiry,
      GetSession.localCheck env accessToken antiCsrfToken doAntiCsrfCheck w =
        (.ret none, w1) →
      env.SendPostRequest "verify" "/session/verify"
        (GetSession.body accessToken antiCsrfToken doAntiCsrfCheck) = .ok response →
      fieldIs response "status" "OK" = true →
      env.GetHandshakeInfoInstance w1.fetches = .error e2 →
      response.lookup "jwtSigningPublicKey" = some (.string key) →
      response.lookup "jwtSigningPublicKeyExpiryTime" = some (.number expiry) →
      (GetSession env accessToken antiCsrfToken doAntiCsrfCheck w).2 =
        { fetches := w1.fetches + 1,
          trace := w1.trace ++ [.AddStateCallingServiceInVerify,
            .SendPostRequest "verify" "/session/verify"
              (GetSession.body accessToken antiCsrfToken doAntiCsrfCheck),
            .UpdateJwtSigningPublicKeyInfo none key
              (uint64 env.uint64OutOfRange expiry)] }) ∧
    (∀ w1 response r w2,
      GetSession.localCheck env accessToken antiCsrfToken doAntiCsrfCheck w =
        (.ret none, w1) →
      env.SendPostRequest "verify" "/session/verify"
        (GetSession.body accessToken antiCsrfToken doAntiCsrfCheck) = .ok response →
      fieldIs response "status" "OK" = true →
      GetSession env accessToken antiCsrfToken doAntiCsrfCheck w = (.ret r, w2) →
      r.2 = none) ∧
    (∀ response transportError e2 w1,
      env.GetHandshakeInfoInstance w1.fetches = .error e2 →
      GetSession.onOK env response (some transportError) w1 =
        (.ret (SessionInfo.zero, some e2),
         { fetches := w1.fetches + 1, trace := w1.trace })) := by
  refine ⟨?_, ?_, ?_, ?_⟩
  · intro e hfetch
    have hrun : GetSession env accessToken antiCsrfToken doAntiCsrfCheck w =
        (.ret (SessionInfo.zero, some e),
         { fetches := w.fetches + 1, trace := w.trace ++ [] }) := by
      simp [GetSession, GetSession.localCheck, Go.bind, hfetch]
    refine ⟨by simpa using hrun, ?_⟩
    exact effects_of_run _ _ _ _ _ hrun
  · intro w1 response e2 key expiry hsent hresp hok hfetch hkey hexp
    rw [(GetSession_of_fallthrough env w w1 _ _ _ hsent).trans (remote_run env w1 _ _ _),
      hresp]
    cases hconv : env.convertJSONResponseToSessionInfo response <;>
      simp [GetSession.onResponse, GetSession.onOK, hok, hkey, hexp, hconv, Go.bind,
        assertString, assertFloat64, errorOf, convertJSONResponseToSessionInfo, hfetch,
        Except.toOption]
  · intro w1 response r w2 hsent hresp hok hret
    rw [(GetSession_of_fallthrough env w w1 _ _ _ hsent).trans (remote_run env w1 _ _ _),
      hresp] at hret
    simp only [GetSession.onResponse, hok, if_true] at hret
    exact returns_onOK_nil env response _ r w2 hret
  · intro response transportError e2 w1 hfetch
    simp [GetSession.onOK, Go.bind, hfetch, errorOf]

theorem GetSession_handshake_errors_witness :
    (GetSession (demo.envFetchOnce (demo.handshake 500 false false) (.ok demo.okResponse))
        "token" none false demo.w0).2 =
      { fetches := 2,
        trace := [.AddStateCallingServiceInVerify,
          .SendPostRequest "verify" "/session/verify" (GetSession.body "token" none false),
          .UpdateJwtSigningPublicKeyInfo none "pk2" 9000] } :=
  (GetSession_handshake_errors
    (demo.envFetchOnce (demo.handshake 500 false false) (.ok demo.okResponse))
    demo.w0 "token" none false).2.1 { fetches := 1, trace := [] } demo.okResponse
    (.GeneralError "core unreachable") "pk2" (.finite false 9000 0) rfl rfl rfl rfl rfl rfl

end core

namespace supertokens

open core

/-- C5. At a request that carries an access token, with a core whose verification fails
with a `TryRefreshTokenError`, the wrapper `GetSession` returns a session with a nil error:
the error of the core does not reach the caller. -/
theorem GetSession_drops_core_error :
    core.GetSession (demo.env (demo.handshake 500 false false) (.ok (demo.claims none))
        (.ok (demo.failResponse "TRY_REFRESH_TOKEN" "expired"))) "expired-token" none false
        { fetches := 0, trace := [.saveFrontendInfoFromRequest] } =
      (.ret (SessionInfo.zero, some (.TryRefreshTokenError "expired")),
       { fetches := 1,
         trace := [.saveFrontendInfoFromRequest, .AddStateCallingServiceInVerify,
           .SendPostRequest "verify" "/session/verify"
             (GetSession.body "expired-token" none false)] }) ∧
    GetSession (demo.env (demo.handshake 500 false false) (.ok (demo.claims none))
        (.ok (demo.failResponse "TRY_REFRESH_TOKEN" "expired")))
        (demo.deps (demo.env (demo.handshake 500 false false) (.ok (demo.claims none))
          (.ok (demo.failResponse "TRY_REFRESH_TOKEN" "expired"))))
        (some 7) demo.request false demo.w0 =
      (.ret ({ accessToken := "expired-token", sessionHandle := "", userID := "",
               userDataInJWT := none, response := some 7 }, none),
       { fetches := 1,
         trace := [.saveFrontendInfoFromRequest, .AddStateCallingServiceInVerify,
           .SendPostRequest "verify" "/session/verify"
             (GetSession.body "expired-token" none false)] }) :=
  ⟨rfl, rfl⟩

/-- C8. Cookie clearing in the wrappers.  In `RefreshSession`, when the refresh of the core
fails with `e`: if `e` is an unauthorised or a token theft error the handshake is fetched
and, when that fetch succeeds, `clearSessionFromCookie` is the one effect added and `e` is
returned (when the fetch fails its error is returned and nothing is added); for any other
`e` nothing is added and `e` is returned.  In `GetSession`, when the verification of the
core fails with `e` and no access token: `clearSessionFromCookie` is added exactly when `e`
is an unauthorised error (and the handshake fetch succeeds), and nothing is added
otherwise. -/
theorem wrappers_cookie_clearing (env : Env) (deps : Deps) (response : Option ResponseRef)
    (request : Request) (doAntiCsrfCheck : Bool) (w : World) :
    (∀ refreshToken si e w2,
      deps.getRefreshTokenFromCookie request = some refreshToken →
      deps.coreRefreshSession refreshToken
        { fetches := w.fetches, trace := w.trace ++ [.saveFrontendInfoFromRequest] } =
          (.ret (si, some e), w2) →
      RefreshSession env deps response request w =
        (if errors.isUnauthorisedType e || errors.isTokenTheftDetectedType e then
          match env.GetHandshakeInfoInstance w2.fetches with
          | .ok h =>
            (.ret (Session.zero, some e),
             { fetches := w2.fetches + 1,
               trace := w2.trace ++ [.clearSessionFromCookie response h.CookieDomain
                 h.CookieSecure h.AccessTokenPath h.RefreshTokenPath h.IDRefreshTokenPath
                 h.CookieSameSite] })
          | .error e2 =>
            (.ret (Session.zero, some e2), { fetches := w2.fetches + 1, trace := w2.trace })
         else (.ret (Session.zero, some e), w2))) ∧
    (∀ accessToken si e w2,
      deps.getAccessTokenFromCookie request = some accessToken →
      deps.coreGetSession accessToken (deps.getAntiCsrfTokenFromHeaders request)
        doAntiCsrfCheck (deps.getIDRefreshTokenFromCookie request)
        { fetches := w.fetches, trace := w.trace ++ [.saveFrontendInfoFromRequest] } =
          (.ret (si, some e), w2) →
      si.AccessToken = none →
      (GetSession env deps response request doAntiCsrfCheck w).2 =
        (if errors.isUnauthorisedType e then
          match env.GetHandshakeInfoInstance w2.fetches with
          | .ok h =>
            { fetches := w2.fetches + 1,
              trace := w2.trace ++ [.clearSessionFromCookie response h.CookieDomain
                h.CookieSecure h.AccessTokenPath h.RefreshTokenPath h.IDRefreshTokenPath
                h.CookieSameSite] }
          | .error _ => { fetches := w2.fetches + 1, trace := w2.trace }
         else w2)) := by
  constructor
  · intro refreshToken si e w2 hrt hcore
    cases hk : (errors.isUnauthorisedType e || errors.isTokenTheftDetectedType e) <;>
    cases hf : env.GetHandshakeInfoInstance w2.fetches <;>
    have hk2 := hk <;>
    simp only [Bool.or_eq_true, Bool.or_eq_false_iff] at hk2 <;>
    simp [RefreshSession, Go.bind, hrt, hcore, hk2, hf, clearSessionFromCookie]
  · intro accessToken si e w2 hat hcore hnone
    cases hk : errors.isUnauthorisedType e <;>
    cases hf : env.GetHandshakeInfoInstance w2.fetches <;>
    simp [GetSession, GetSession.onError, Go.bind, hat, hcore, hk, hf, hnone,
      clearSessionFromCookie]

theorem wrappers_cookie_clearing_witness :
    RefreshSession (demo.env (demo.handshake 2000 false false) (.ok (demo.claims none))
        (.ok demo.theftResponse))
        (demo.deps (demo.env (demo.handshake 2000 false false) (.ok (demo.claims none))
          (.ok demo.theftResponse)))
        (some 7) demo.request demo.w0 =
      (.ret (Session.zero,
         some (.TokenTheftDetectedError "Token theft detected" "h1" "u1")),
       { fetches := 1,
         trace := [.saveFrontendInfoFromRequest,
           .SendPostRequest "refresh" "/session/refresh"
             [("refreshToken", .string "old-refresh-token")],
           .clearSessionFromCookie (some 7) (some "example.com") true "/" "/refresh" "/"
             "lax"] }) :=
  (wrappers_cookie_clearing
    (demo.env (demo.handshake 2000 false false) (.ok (demo.claims none))
      (.ok demo.theftResponse))
    (demo.deps (demo.env (demo.handshake 2000 false false) (.ok (demo.claims none))
      (.ok demo.theftResponse)))
    (some 7) demo.request false demo.w0).1 "old-refresh-token" SessionInfo.zero
    (.TokenTheftDetectedError "Token theft detected" "h1" "u1")
    { fetches := 0,
      trace := [.saveFrontendInfoFromRequest,
        .SendPostRequest "refresh" "/session/refresh"
          [("refreshToken", .string "old-refresh-token")]] }
    rfl rfl

end supertokens
